import Mathlib

/-! # FSUIPC-LIB: frequency codec and connection state machine

A shallow embedding of `src/main.cpp` (the exported operations of the FSUIPC
wrapper library) and of the result records of `src/src/fsuipc_export.h`.

Machine integers are natural numbers or integers with explicit reduction
modulo `2 ^ 32`, `2 ^ 16` or `2 ^ 8`.  Operations that can throw a C++ exception
return `Except`.
-/

namespace FSUIPC

/-! ## Frequency codec -/

/-- The loop of `toBCDNumber`: `n` is the remaining number, `bcd` the 32-bit
accumulator, `shift` the 8-bit digit position.  The first argument bounds the
number of iterations; `toBCDNumber` passes a bound the loop never reaches.
`digit << (shift * 4)` is reduced modulo `2 ^ 32`, the width of `bcd`. -/
def toBCDLoop : Nat → Nat → Nat → Nat → Nat
  | 0, _, bcd, _ => bcd
  | fuel + 1, n, bcd, shift =>
    if n > 0 then
      let digit := n % 10 % 256
      toBCDLoop fuel (n / 10) ((bcd ||| (digit <<< (shift * 4)) % 2 ^ 32) % 2 ^ 32)
        ((shift + 1) % 256)
    else bcd

/-- The function `uint32_t toBCDNumber(int n)`.  For `n <= 0` the loop body is never
entered; for `n > 0` the remainder and quotient of the C++ `int` are those
of the natural number. -/
def toBCDNumber (n : Int) : Nat :=
  toBCDLoop (n.toNat + 1) n.toNat 0 0

/-- The statement `ss << std::hex << n` for an `int n`: the hexadecimal digits, in lower
case and without prefix, of the 32-bit two's complement pattern of `n`. -/
def hexStr (n : Int) : List Char :=
  Nat.toDigits 16 (n % 2 ^ 32).toNat

/-- The two exceptions `std::stol` can throw. -/
inductive StolError
  | invalid_argument
  | out_of_range
  deriving DecidableEq, Repr

instance instDecidableEqExcept {ε α : Type} [DecidableEq ε] [DecidableEq α] :
    DecidableEq (Except ε α)
  | Except.ok a, Except.ok b =>
    if h : a = b then isTrue (by rw [h]) else isFalse (fun e => h (Except.ok.inj e))
  | Except.error a, Except.error b =>
    if h : a = b then isTrue (by rw [h]) else isFalse (fun e => h (Except.error.inj e))
  | Except.ok _, Except.error _ => isFalse (fun e => Except.noConfusion e)
  | Except.error _, Except.ok _ => isFalse (fun e => Except.noConfusion e)

/-- The C `isspace` test of the default locale. -/
def isspace (c : Char) : Bool :=
  c = ' ' || c = '\t' || c = '\n' || c = '\x0b' || c = '\x0c' || c = '\r'

/-- The value of a run of decimal digit characters. -/
def decimalValue (ds : List Char) : Nat :=
  ds.foldl (fun acc c => 10 * acc + (c.toNat - 48)) 0

/-- The digits part of `std::stol`: the longest prefix of decimal digits is converted; an empty
prefix throws `std::invalid_argument`, a value that does not fit a `long` (32 bits on
the Windows targets of this DLL) throws `std::out_of_range`. -/
def stolDigits (negative : Bool) (s : List Char) : Except StolError Int :=
  let ds := s.takeWhile Char.isDigit
  if ds.isEmpty then Except.error StolError.invalid_argument
  else
    let v : Int := if negative then -(decimalValue ds : Int) else (decimalValue ds : Int)
    if v < -2 ^ 31 ∨ 2 ^ 31 ≤ v then Except.error StolError.out_of_range
    else Except.ok v

/-- The call `std::stol(str)` in base 10: leading white space is skipped, an optional sign is
read, then the decimal digits. -/
def stol (s : List Char) : Except StolError Int :=
  match s.dropWhile isspace with
  | '-' :: rest => stolDigits true rest
  | '+' :: rest => stolDigits false rest
  | rest => stolDigits false rest

/-- The first three statements of `processNumber`: `uint32_t converted = stol(hexStr)` where
`hexStr` is `n` written in hexadecimal.  This is the BCD decoding step. -/
def bcdDecode (n : Int) : Except StolError Nat :=
  (stol (hexStr n)).map fun l => (l % 2 ^ 32).toNat

/-- The return expression of `processNumber`:
`(uint32_t) (converted * 10 + 100000 + (converted % 5) * 2.5) * 1000`.
The cast binds tighter than the product, so the sum is truncated to an integer
before it is multiplied by 1000.  `converted * 10 + 100000` is 32-bit unsigned
arithmetic; `(converted % 5) * 2.5` is one of 0, 2.5, 5, 7.5, 10, and the sum, a
multiple of one half below `2 ^ 33`, is exact in a `double`; it is kept here as
the numerator `2 * base + 5 * (converted % 5)` over 2. -/
def rebase (converted : Nat) : Nat :=
  let base := (converted * 10 + 100000) % 2 ^ 32
  let truncated := (2 * base + 5 * (converted % 5)) / 2
  (truncated % 2 ^ 32) * 1000 % 2 ^ 32

/-- The function `uint32_t processNumber(int n)`: the VER1 decode. -/
def processNumber (n : Int) : Except StolError Nat :=
  (bcdDecode n).map rebase

/-! ## The transport client and the module state -/

/-- Modelled from the spec: the connection states of `fsuipc_definition.h`, which is not among
the sources (spec section 3: NO_CONNECTION, CONNECTED). -/
inductive SimConnectionStatus
  | NO_CONNECTION
  | CONNECTED
  deriving DecidableEq, Repr

/-- Modelled from the spec: the API versions of `fsuipc_definition.h`, which is not among the
sources (spec section 3: UNKNOWN, VER1, VER2). -/
inductive ApiVersion
  | API_UNKNOWN
  | API_VER1
  | API_VER2
  deriving DecidableEq, Repr

/-- Modelled from the spec: the numeric value of a connection state, in the order in which the
spec lists the enumerators. -/
def SimConnectionStatus.code : SimConnectionStatus → Nat
  | SimConnectionStatus.NO_CONNECTION => 0
  | SimConnectionStatus.CONNECTED => 1

/-- Modelled from the spec: the numeric value of an API version, in the order in which the spec
lists the enumerators. -/
def ApiVersion.code : ApiVersion → Nat
  | ApiVersion.API_UNKNOWN => 0
  | ApiVersion.API_VER1 => 1
  | ApiVersion.API_VER2 => 2

/-- Modelled from the spec: the error codes of the transport, declared in
`fsuipc_definition.h`; `main.cpp` only distinguishes `OK` from the rest. -/
inductive Error
  | OK
  | FAILED (code : Nat)
  deriving DecidableEq, Repr

/-- Modelled from the spec: the record filled by `getVersion` (spec section 6). -/
structure VersionInfo where
  simulator : Nat
  fsuipc : Nat
  deriving DecidableEq, Repr

/-- Modelled from the spec: the offsets of the nine read descriptors that `main.cpp`
instantiates; their numeric values are in `fsuipc_definition.h`, so each offset is
named after its descriptor. -/
inductive Offset
  | com1ActiveVer1
  | com1StandbyVer1
  | com2ActiveVer1
  | com2StandbyVer1
  | com1ActiveVer2
  | com1StandbyVer2
  | com2ActiveVer2
  | com2StandbyVer2
  | radioSwitch
  deriving DecidableEq, Repr

/-- A call of a transport primitive that reaches the simulator (spec section 6).  The pure
queries `getLastError`, `getLastErrorMessage` and `getApiVersion` are not calls.
`open_` stands for `open`, a reserved word. -/
inductive Call
  | open_
  | close
  | getVersion
  | readBYTE (offset : Offset)
  | readWORD (offset : Offset)
  | readDWORD (offset : Offset)
  | writeWORD (offset : Offset) (data : Nat)
  | writeDWORD (offset : Offset) (data : Nat)
  | process
  deriving DecidableEq, Repr

/-- Modelled from the spec: the behaviour of the simulator side of the transport
(`fsuipc_client.h` is not among the sources).  Every answer is an arbitrary function of
the calls made so far, the latest call last. -/
structure Transport where
  openResult : List Call → Bool
  negotiated : List Call → ApiVersion
  lastError : List Call → Error
  lastErrorMessage : List Call → String
  version : List Call → Option VersionInfo
  data : List Call → Offset → Nat

/-- Modelled from the spec: the transport client object `FSUIPC::FSUIPCClient client`: the log
of the calls made, the reads queued since the last `process`, and the simulator
behind it. -/
structure FSUIPCClient where
  calls : List Call
  pending : List Offset
  transport : Transport

namespace FSUIPCClient

/-- Records a call in the log. -/
def record (c : FSUIPCClient) (call : Call) : FSUIPCClient :=
  { c with calls := c.calls ++ [call] }

/-- Modelled from the spec: `open() -> bool`. -/
def open_ (c : FSUIPCClient) : Bool × FSUIPCClient :=
  let c1 := c.record Call.open_
  (c1.transport.openResult c1.calls, c1)

/-- Modelled from the spec: `close()`. -/
def close (c : FSUIPCClient) : FSUIPCClient :=
  c.record Call.close

/-- Modelled from the spec: `getLastError() -> ErrorCode`. -/
def getLastError (c : FSUIPCClient) : Error :=
  c.transport.lastError c.calls

/-- Modelled from the spec: `getLastErrorMessage() -> string`. -/
def getLastErrorMessage (c : FSUIPCClient) : String :=
  c.transport.lastErrorMessage c.calls

/-- Modelled from the spec: `getApiVersion() -> ApiVersion`. -/
def getApiVersion (c : FSUIPCClient) : ApiVersion :=
  c.transport.negotiated c.calls

/-- Modelled from the spec: `getVersion(out VersionInfo) -> bool`; `none` is the result `false`. -/
def getVersion (c : FSUIPCClient) : Option VersionInfo × FSUIPCClient :=
  let c1 := c.record Call.getVersion
  (c1.transport.version c1.calls, c1)

/-- Modelled from the spec: `readBYTE(offsetDescriptor)` queues a read. -/
def readBYTE (c : FSUIPCClient) (o : Offset) : FSUIPCClient :=
  { c.record (Call.readBYTE o) with pending := c.pending ++ [o] }

/-- Modelled from the spec: `readWORD(offsetDescriptor)` queues a read. -/
def readWORD (c : FSUIPCClient) (o : Offset) : FSUIPCClient :=
  { c.record (Call.readWORD o) with pending := c.pending ++ [o] }

/-- Modelled from the spec: `readDWORD(offsetDescriptor)` queues a read. -/
def readDWORD (c : FSUIPCClient) (o : Offset) : FSUIPCClient :=
  { c.record (Call.readDWORD o) with pending := c.pending ++ [o] }

/-- Modelled from the spec: `writeWORD(offsetDescriptor)` queues the write of the data held
by the descriptor. -/
def writeWORD (c : FSUIPCClient) (o : Offset) (data : Nat) : FSUIPCClient :=
  c.record (Call.writeWORD o data)

/-- Modelled from the spec: `writeDWORD(offsetDescriptor)` queues the write of the data held
by the descriptor. -/
def writeDWORD (c : FSUIPCClient) (o : Offset) (data : Nat) : FSUIPCClient :=
  c.record (Call.writeDWORD o data)

/-- Modelled from the spec: `process()` flushes the queue in one round trip. -/
def process (c : FSUIPCClient) : FSUIPCClient :=
  { c.record Call.process with pending := [] }

/-- Modelled from the spec: the data a read descriptor of the given width holds once
`process` has run: fresh data if its read was queued, the old data otherwise. -/
def fresh (c : FSUIPCClient) (o : Offset) (bits old : Nat) : Nat :=
  if o ∈ c.pending then c.transport.data (c.calls ++ [Call.process]) o % 2 ^ bits else old

end FSUIPCClient

/-- The module-scope variables of `main.cpp`.  A read descriptor is represented by its `data`
field, a write buffer (`com1Ver1`, ...) by its `data` field; their offsets are fixed at
construction. -/
structure State where
  client : FSUIPCClient
  status : SimConnectionStatus
  apiVersion : ApiVersion
  com1ActiveVer1 : Nat
  com1StandbyVer1 : Nat
  com2ActiveVer1 : Nat
  com2StandbyVer1 : Nat
  com1ActiveVer2 : Nat
  com1StandbyVer2 : Nat
  com2ActiveVer2 : Nat
  com2StandbyVer2 : Nat
  radioSwitch : Nat
  com1Ver1 : Nat
  com1Ver2 : Nat
  com2Ver1 : Nat
  com2Ver2 : Nat
  com1ActiveLast : Nat
  com1StandbyLast : Nat
  com2ActiveLast : Nat
  com2StandbyLast : Nat
  com1Active : Nat
  com1Standby : Nat
  com2Active : Nat
  com2Standby : Nat

/-- The state at load time, for a given simulator: the initialisers of lines 9 to 37. -/
def State.initial (t : Transport) : State :=
  { client := { calls := [], pending := [], transport := t }
    status := SimConnectionStatus.NO_CONNECTION
    apiVersion := ApiVersion.API_UNKNOWN
    com1ActiveVer1 := 0, com1StandbyVer1 := 0, com2ActiveVer1 := 0, com2StandbyVer1 := 0
    com1ActiveVer2 := 0, com1StandbyVer2 := 0, com2ActiveVer2 := 0, com2StandbyVer2 := 0
    radioSwitch := 0
    com1Ver1 := 0, com1Ver2 := 0, com2Ver1 := 0, com2Ver2 := 0
    com1ActiveLast := 0, com1StandbyLast := 0, com2ActiveLast := 0, com2StandbyLast := 0
    com1Active := 0, com1Standby := 0, com2Active := 0, com2Standby := 0 }

/-- The call `client.process()` seen from the module: the call is logged and every read
descriptor whose read was queued receives fresh data of its width. -/
def State.process (s : State) : State :=
  { s with
    client := s.client.process
    com1ActiveVer1 := s.client.fresh Offset.com1ActiveVer1 16 s.com1ActiveVer1
    com1StandbyVer1 := s.client.fresh Offset.com1StandbyVer1 16 s.com1StandbyVer1
    com2ActiveVer1 := s.client.fresh Offset.com2ActiveVer1 16 s.com2ActiveVer1
    com2StandbyVer1 := s.client.fresh Offset.com2StandbyVer1 16 s.com2StandbyVer1
    com1ActiveVer2 := s.client.fresh Offset.com1ActiveVer2 32 s.com1ActiveVer2
    com1StandbyVer2 := s.client.fresh Offset.com1StandbyVer2 32 s.com1StandbyVer2
    com2ActiveVer2 := s.client.fresh Offset.com2ActiveVer2 32 s.com2ActiveVer2
    com2StandbyVer2 := s.client.fresh Offset.com2StandbyVer2 32 s.com2StandbyVer2
    radioSwitch := s.client.fresh Offset.radioSwitch 8 s.radioSwitch }

/-! ## Result records (`fsuipc_export.h`) -/

/-- The record `struct BaseModel`. -/
structure BaseModel where
  requestStatus : Bool := false
  errMessage : String := "No error found"
  deriving DecidableEq, Repr

/-- The record `struct ConnectionStatus : BaseModel`. -/
structure ConnectionStatus extends BaseModel where
  status : Nat := SimConnectionStatus.NO_CONNECTION.code
  deriving DecidableEq, Repr

/-- The record `struct Frequencies : BaseModel`; `frequency` has four entries. -/
structure Frequencies extends BaseModel where
  frequencyFlag : Nat := 0
  frequency : List Nat := [0, 0, 0, 0]
  deriving DecidableEq, Repr

/-- The record `struct Version : BaseModel`. -/
structure Version extends BaseModel where
  simulatorType : Nat := 0
  fsuipcVersion : Nat := 0
  apiVersion : Nat := 0
  deriving DecidableEq, Repr

/-! ## The operations of `main.cpp` -/

open SimConnectionStatus ApiVersion

/-- The function `void updateSimConnection(FSUIPC::SimConnectionStatus)`. -/
def updateSimConnection (s : State) (connectionStatus : SimConnectionStatus) : State :=
  { s with status := connectionStatus }

/-- The function `void disconnect()`. -/
def disconnect (s : State) : State :=
  if s.status = CONNECTED then
    let s1 := { s with client := s.client.close }
    let s2 := { s1 with apiVersion := API_UNKNOWN }
    updateSimConnection s2 NO_CONNECTION
  else s

/-- The VER2 read transform of `readFrequencyVer2`: `com1Active = com1ActiveVer2.data`, a
32-bit value stored in a `uint32_t`. -/
def decodeVer2 (data : Nat) : Nat :=
  data % 2 ^ 32

/-- The VER2 write transform of `SetCom1Frequency` and `SetCom2Frequency`:
`frequency * 1000`, an `int` product stored in the 32-bit write buffer. -/
def encodeVer2 (frequency : Int) : Nat :=
  (frequency * 1000 % 2 ^ 32).toNat

/-- The function `void readFrequencyVer1()`.  `processNumber` can throw. -/
def readFrequencyVer1 (s : State) : Except StolError State := do
  let s := { s with client := s.client.readWORD Offset.com1ActiveVer1 }
  let s := { s with client := s.client.readWORD Offset.com1StandbyVer1 }
  let s := { s with client := s.client.readWORD Offset.com2ActiveVer1 }
  let s := { s with client := s.client.readWORD Offset.com2StandbyVer1 }
  let s := s.process
  let a ← processNumber s.com1ActiveVer1
  let s := { s with com1Active := a }
  let b ← processNumber s.com1StandbyVer1
  let s := { s with com1Standby := b }
  let c ← processNumber s.com2ActiveVer1
  let s := { s with com2Active := c }
  let d ← processNumber s.com2StandbyVer1
  pure { s with com2Standby := d }

/-- The function `void readFrequencyVer2()`. -/
def readFrequencyVer2 (s : State) : State :=
  let s := { s with client := s.client.readDWORD Offset.com1ActiveVer2 }
  let s := { s with client := s.client.readDWORD Offset.com1StandbyVer2 }
  let s := { s with client := s.client.readDWORD Offset.com2ActiveVer2 }
  let s := { s with client := s.client.readDWORD Offset.com2StandbyVer2 }
  let s := s.process
  let s := { s with com1Active := decodeVer2 s.com1ActiveVer2 }
  let s := { s with com1Standby := decodeVer2 s.com1StandbyVer2 }
  let s := { s with com2Active := decodeVer2 s.com2ActiveVer2 }
  { s with com2Standby := decodeVer2 s.com2StandbyVer2 }

/-- The function `void processFrequencyData()`. -/
def processFrequencyData (s : State) : State :=
  if s.com1Active = 0 ∧ s.com1Standby = 0 ∧ s.com2Active = 0 ∧ s.com2Standby = 0 then
    let s := { s with
      com1ActiveLast := 0, com1StandbyLast := 0, com2ActiveLast := 0, com2StandbyLast := 0 }
    disconnect s
  else
    let s := if s.com1Active ≠ s.com1ActiveLast then
      { s with com1ActiveLast := s.com1Active } else s
    let s := if s.com1Standby ≠ s.com1StandbyLast then
      { s with com1StandbyLast := s.com1Standby } else s
    let s := if s.com2Active ≠ s.com2ActiveLast then
      { s with com2ActiveLast := s.com2Active } else s
    if s.com2Standby ≠ s.com2StandbyLast then
      { s with com2StandbyLast := s.com2Standby } else s

/-- The exported `Version *OpenFSUIPCClient()`. -/
def OpenFSUIPCClient (s : State) : State × Version :=
  let res : Version := {}
  let opened := s.client.open_
  let s := { s with client := opened.2 }
  if !opened.1 then
    (s, { res with errMessage := s.client.getLastErrorMessage })
  else
    let res := { res with requestStatus := true }
    let s := updateSimConnection s CONNECTED
    let s := { s with apiVersion := s.client.getApiVersion }
    let res := { res with apiVersion := s.apiVersion.code % 2 ^ 8 }
    let queried := s.client.getVersion
    let s := { s with client := queried.2 }
    match queried.1 with
    | none => (s, { res with errMessage := s.client.getLastErrorMessage })
    | some version =>
      let res := { res with simulatorType := version.simulator % 2 ^ 16 }
      (s, { res with fsuipcVersion := version.fsuipc % 2 ^ 32 })

/-- The exported `BaseModel *CloseFSUIPCClient()`. -/
def CloseFSUIPCClient (s : State) : State × BaseModel :=
  let res : BaseModel := {}
  let s := disconnect s
  if s.client.getLastError = Error.OK then
    (s, { res with requestStatus := true })
  else
    (s, { res with errMessage := s.client.getLastErrorMessage })

/-- The exported `Frequencies *ReadFrequencyInfo()`.  An exception of `processNumber` is not
caught anywhere and leaves the operation without a result. -/
def ReadFrequencyInfo (s : State) : Except StolError (State × Frequencies) :=
  let res : Frequencies := {}
  if s.status ≠ CONNECTED then
    pure (s, { res with errMessage := "FSUIPC not connected" })
  else if s.apiVersion = API_UNKNOWN then
    pure (s, { res with errMessage := "Unsupported FSUIPC api version" })
  else do
    let s := { s with client := s.client.readBYTE Offset.radioSwitch }
    let s ← if s.apiVersion = API_VER1 then readFrequencyVer1 s else pure (readFrequencyVer2 s)
    let s := processFrequencyData s
    let res := { res with frequency := res.frequency.set 0 s.com1Active }
    let res := { res with frequency := res.frequency.set 1 s.com1Standby }
    let res := { res with frequency := res.frequency.set 2 s.com2Active }
    let res := { res with frequency := res.frequency.set 3 s.com2Standby }
    let res := { res with frequencyFlag := s.radioSwitch % 2 ^ 8 }
    if s.client.getLastError = Error.OK then
      pure (s, { res with requestStatus := true })
    else
      pure (s, { res with errMessage := s.client.getLastErrorMessage })

/-- The exported `ConnectionStatus *GetConnectionState()`. -/
def GetConnectionState (s : State) : State × ConnectionStatus :=
  let res : ConnectionStatus := {}
  let res := { res with requestStatus := true }
  (s, { res with status := s.status.code })

/-- The exported `Version *GetFSUIPCVersionInfo()`. -/
def GetFSUIPCVersionInfo (s : State) : State × Version :=
  let res : Version := {}
  if s.status ≠ CONNECTED then
    (s, { res with errMessage := "FSUIPC not connected" })
  else
    let queried := s.client.getVersion
    let s := { s with client := queried.2 }
    match queried.1 with
    | none => (s, { res with errMessage := s.client.getLastErrorMessage })
    | some version =>
      let res := { res with apiVersion := s.apiVersion.code % 2 ^ 8 }
      let res := { res with simulatorType := version.simulator % 2 ^ 16 }
      (s, { res with fsuipcVersion := version.fsuipc % 2 ^ 32 })

/-- The exported `BaseModel *SetCom1Frequency(int frequency)`.  The write buffer `com1Ver1`
holds a 16-bit word, `com1Ver2` a 32-bit word; `/` on `int` truncates toward zero. -/
def SetCom1Frequency (s : State) (frequency : Int) : State × BaseModel :=
  let res : BaseModel := {}
  if s.status ≠ CONNECTED then
    (s, { res with errMessage := "FSUIPC not connected" })
  else
    match s.apiVersion with
    | API_UNKNOWN => (s, { res with errMessage := "Unsupported FSUIPC api version" })
    | API_VER1 =>
      let frequency := if frequency > 100000 then frequency - 100000 else frequency
      let s := { s with com1Ver1 := toBCDNumber (frequency.tdiv 10) % 2 ^ 16 }
      let s := { s with client := s.client.writeWORD Offset.com1ActiveVer1 s.com1Ver1 }
      let s := s.process
      if s.client.getLastError = Error.OK then
        (s, { res with requestStatus := true })
      else
        (s, { res with errMessage := s.client.getLastErrorMessage })
    | API_VER2 =>
      let s := { s with com1Ver2 := encodeVer2 frequency }
      let s := { s with client := s.client.writeDWORD Offset.com1ActiveVer2 s.com1Ver2 }
      let s := s.process
      if s.client.getLastError = Error.OK then
        (s, { res with requestStatus := true })
      else
        (s, { res with errMessage := s.client.getLastErrorMessage })

/-- The exported `BaseModel *SetCom2Frequency(int frequency)`. -/
def SetCom2Frequency (s : State) (frequency : Int) : State × BaseModel :=
  let res : BaseModel := {}
  if s.status ≠ CONNECTED then
    (s, { res with errMessage := "FSUIPC not connected" })
  else
    match s.apiVersion with
    | API_UNKNOWN => (s, { res with errMessage := "Unsupported FSUIPC api version" })
    | API_VER1 =>
      let frequency := if frequency > 100000 then frequency - 100000 else frequency
      let frequency := frequency.tdiv 10
      let s := { s with com2Ver1 := toBCDNumber frequency % 2 ^ 16 }
      let s := { s with client := s.client.writeWORD Offset.com2ActiveVer1 s.com2Ver1 }
      let s := s.process
      if s.client.getLastError = Error.OK then
        (s, { res with requestStatus := true })
      else
        (s, { res with errMessage := s.client.getLastErrorMessage })
    | API_VER2 =>
      let s := { s with com2Ver2 := encodeVer2 frequency }
      let s := { s with client := s.client.writeDWORD Offset.com2ActiveVer2 s.com2Ver2 }
      let s := s.process
      if s.client.getLastError = Error.OK then
        (s, { res with requestStatus := true })
      else
        (s, { res with errMessage := s.client.getLastErrorMessage })

/-! ## Reference notions of the specification and sample states -/

/-- The nibble of `w` at position `p`, position 0 being the least significant. -/
def nibble (w p : Nat) : Nat :=
  w / 16 ^ p % 16

/-- The decimal digit of `m` at position `p`. -/
def decimalDigit (m p : Nat) : Nat :=
  m / 10 ^ p % 10

/-- The packed BCD of `m` as the spec words it: the sum over the four decimal positions `p` of
a 16-bit word of `(digit p of m) << (4p)`. -/
def packedBCD (m : Nat) : Nat :=
  ((List.range 4).map fun p => decimalDigit m p <<< (4 * p)).sum

/-- The integer a 16-bit packed BCD word stands for: the nibble at position `p` is the decimal
digit of weight `10 ^ p`. -/
def bcdValue (w : Nat) : Nat :=
  ((List.range 4).map fun p => nibble w p * 10 ^ p).sum

/-- The canonical VER1 frequency as the spec words it, computed exactly:
`(10 * n + 100000 + 2.5 * (n mod 5)) * 1000`. -/
def exactFrequency (n : Nat) : ℚ :=
  (10 * (n : ℚ) + 100000 + 5 / 2 * ((n % 5 : Nat) : ℚ)) * 1000

/-- The most significant hexadecimal digit of a 16-bit word, the one `std::hex` prints
first. -/
def leadingNibble (w : Nat) : Nat :=
  if w < 16 then w else if w < 256 then w / 16 else if w < 4096 then w / 256 else w / 4096

/-- A simulator that accepts `open`, negotiates version `v`, answers every version query with
simulator 8 and FSUIPC version 7, reports the error `e` with the message `msg`, and
delivers `d` for every offset read. -/
def Transport.steady (v : ApiVersion) (e : Error) (msg : String) (d : Nat) : Transport :=
  { openResult := fun _ => true
    negotiated := fun _ => v
    lastError := fun _ => e
    lastErrorMessage := fun _ => msg
    version := fun _ => some { simulator := 8, fsuipc := 7 }
    data := fun _ _ => d }

/-- A simulator that refuses `open` and reports the message `msg`. -/
def Transport.refusing (msg : String) : Transport :=
  { openResult := fun _ => false
    negotiated := fun _ => API_UNKNOWN
    lastError := fun _ => Error.FAILED 1
    lastErrorMessage := fun _ => msg
    version := fun _ => none
    data := fun _ _ => 0 }

/-- A connected state with version `v` and the four cached frequencies set to `last`. -/
def State.connected (t : Transport) (v : ApiVersion) (last : Nat) : State :=
  { State.initial t with
    status := CONNECTED
    apiVersion := v
    com1ActiveLast := last, com1StandbyLast := last
    com2ActiveLast := last, com2StandbyLast := last }

/-- A simulator that accepts `open`, negotiates version `v`, reports the error `e` with the
message `msg`, and delivers a different value on every offset: four packed BCD words on
the VER1 offsets, four frequencies in Hz on the VER2 offsets and the byte `0xC0` on the
radio switch. -/
def Transport.radio (v : ApiVersion) (e : Error) (msg : String) : Transport :=
  { openResult := fun _ => true
    negotiated := fun _ => v
    lastError := fun _ => e
    lastErrorMessage := fun _ => msg
    version := fun _ => some { simulator := 8, fsuipc := 7 }
    data := fun _ o =>
      match o with
      | Offset.com1ActiveVer1 => 0x1830
      | Offset.com1StandbyVer1 => 0x2150
      | Offset.com2ActiveVer1 => 0x2280
      | Offset.com2StandbyVer1 => 0x3697
      | Offset.com1ActiveVer2 => 118300000
      | Offset.com1StandbyVer2 => 121500000
      | Offset.com2ActiveVer2 => 122800000
      | Offset.com2StandbyVer2 => 136975000
      | Offset.radioSwitch => 0xC0 }

/-- An exported operation together with its argument.  `FreeMemory` only releases a result
record and does not touch the module state. -/
inductive Operation
  | openClient
  | closeClient
  | readFrequencyInfo
  | getConnectionState
  | getVersionInfo
  | setCom1Frequency (frequency : Int)
  | setCom2Frequency (frequency : Int)
  deriving DecidableEq, Repr

/-- The effect of one exported operation on the module state; the result record is dropped.
An uncaught exception ends the run. -/
def Operation.apply : Operation → State → Except StolError State
  | Operation.openClient, s => pure (OpenFSUIPCClient s).1
  | Operation.closeClient, s => pure (CloseFSUIPCClient s).1
  | Operation.readFrequencyInfo, s => (ReadFrequencyInfo s).map Prod.fst
  | Operation.getConnectionState, s => pure (GetConnectionState s).1
  | Operation.getVersionInfo, s => pure (GetFSUIPCVersionInfo s).1
  | Operation.setCom1Frequency frequency, s => pure (SetCom1Frequency s frequency).1
  | Operation.setCom2Frequency frequency, s => pure (SetCom2Frequency s frequency).1

/-- A finite sequence of exported operations, run in order from the state `s`. -/
def run : List Operation → State → Except StolError State
  | [], s => pure s
  | op :: ops, s =>
    match op.apply s with
    | Except.error e => Except.error e
    | Except.ok s1 => run ops s1

/-! ## Lemmas and theorems -/

/-- The four low decimal digits of `n`, one per nibble -/
def packDigits : Nat → Nat → Nat
  | 0, _ => 0
  | k + 1, n => n % 10 + 16 * packDigits k (n / 10)

theorem packDigits_zero (k : Nat) : packDigits k 0 = 0 := by
  induction k with
  | zero => rfl
  | succ k ih => simp [packDigits, ih]

theorem packDigits_lt (k : Nat) : ∀ n, packDigits k n < 16 ^ k := by
  induction k with
  | zero => intro n; simp [packDigits]
  | succ k ih =>
    intro n
    have h := ih (n / 10)
    have h10 : n % 10 < 10 := Nat.mod_lt _ (by decide)
    simp only [packDigits, pow_succ]
    omega

theorem or_shift_eq_add (bcd d shift : Nat) (hb : bcd < 16 ^ shift) :
    bcd ||| d <<< (shift * 4) = bcd + 16 ^ shift * d := by
  have h16 : (16 : Nat) ^ shift = 2 ^ (shift * 4) := by
    rw [Nat.mul_comm, pow_mul]; norm_num
  rw [h16] at hb ⊢
  rw [Nat.shiftLeft_eq, Nat.or_comm, Nat.mul_comm d, ← Nat.mul_add_lt_is_or hb, Nat.add_comm]

theorem toBCDLoop_eq (k : Nat) : ∀ fuel n bcd shift, n < 10 ^ k → n < fuel → shift + k ≤ 8 →
    bcd < 16 ^ shift → toBCDLoop fuel n bcd shift = bcd + 16 ^ shift * packDigits k n := by
  induction k with
  | zero =>
    intro fuel n bcd shift hn hf _ _
    have h0 : n = 0 := by simpa using hn
    subst h0
    cases fuel with
    | zero => omega
    | succ f => simp [toBCDLoop, packDigits]
  | succ k ih =>
    intro fuel n bcd shift hn hf hs hb
    cases fuel with
    | zero => omega
    | succ f =>
      by_cases h0 : n = 0
      · subst h0
        simp [toBCDLoop, packDigits_zero]
      · have hpos : n > 0 := Nat.pos_of_ne_zero h0
        have hd : n % 10 % 256 = n % 10 := by omega
        have hsh : (shift + 1) % 256 = shift + 1 := by omega
        have hlt : bcd + 16 ^ shift * (n % 10) < 16 ^ (shift + 1) := by
          have : n % 10 < 10 := Nat.mod_lt _ (by decide)
          rw [pow_succ]
          nlinarith
        have hle : (16 : Nat) ^ (shift + 1) ≤ 2 ^ 32 := by
          have : (2 : Nat) ^ 32 = 16 ^ 8 := by norm_num
          rw [this]
          exact Nat.pow_le_pow_right (by decide) (by omega)
        have hor := or_shift_eq_add bcd (n % 10) shift hb
        have hsm : (n % 10) <<< (shift * 4) % 2 ^ 32 = (n % 10) <<< (shift * 4) := by
          apply Nat.mod_eq_of_lt
          have : (n % 10) <<< (shift * 4) = 16 ^ shift * (n % 10) := by
            rw [Nat.shiftLeft_eq, Nat.mul_comm shift, pow_mul, Nat.mul_comm]; norm_num
          omega
        have hacc : (bcd ||| (n % 10) <<< (shift * 4) % 2 ^ 32) % 2 ^ 32
            = bcd + 16 ^ shift * (n % 10) := by
          rw [hsm, hor]
          exact Nat.mod_eq_of_lt (by omega)
        have hstep : toBCDLoop (f + 1) n bcd shift
            = toBCDLoop f (n / 10) (bcd + 16 ^ shift * (n % 10)) (shift + 1) := by
          simp only [toBCDLoop, hpos, if_true, hd, hsh, hacc]
        rw [hstep, ih f (n / 10) _ (shift + 1) (by rw [pow_succ] at hn; omega) (by omega)
          (by omega) hlt]
        simp only [packDigits, pow_succ]
        ring

theorem toBCDNumber_eq (n : Nat) (h : n < 10 ^ 8) : toBCDNumber (n : Int) = packDigits 8 n := by
  have := toBCDLoop_eq 8 (n + 1) n 0 0 h (by omega) (by omega) (by simp)
  simpa [toBCDNumber] using this

theorem toDigitsCore_hex (fuel n : Nat) (ds : List Char) (h : n < fuel) :
    Nat.toDigitsCore 16 fuel n ds =
      if n < 16 then n.digitChar :: ds
      else Nat.toDigitsCore 16 (fuel - 1) (n / 16) ((n % 16).digitChar :: ds) := by
  cases fuel with
  | zero => omega
  | succ f =>
    by_cases h16 : n < 16
    · have h1 : n / 16 = 0 := by omega
      have h2 : n % 16 = n := by omega
      simp [Nat.toDigitsCore, h1, h2, h16]
    · have h1 : n / 16 ≠ 0 := by omega
      simp [Nat.toDigitsCore, h1, h16]

theorem toDigits_hex16 (w : Nat) (h : w < 65536) :
    Nat.toDigits 16 w =
      if w < 16 then [w.digitChar]
      else if w < 256 then [(w / 16).digitChar, (w % 16).digitChar]
      else if w < 4096 then [(w / 256).digitChar, (w / 16 % 16).digitChar, (w % 16).digitChar]
      else [(w / 4096).digitChar, (w / 256 % 16).digitChar, (w / 16 % 16).digitChar,
        (w % 16).digitChar] := by
  unfold Nat.toDigits
  rw [toDigitsCore_hex _ _ _ (by omega)]
  split_ifs with h1 h2 h3
  · rfl
  · rw [toDigitsCore_hex _ _ _ (by omega), if_pos (by omega)]
  · rw [toDigitsCore_hex _ _ _ (by omega), if_neg (by omega),
      toDigitsCore_hex _ _ _ (by omega), if_pos (by omega)]
    have : w / 16 / 16 = w / 256 := by omega
    rw [this]
  · rw [toDigitsCore_hex _ _ _ (by omega), if_neg (by omega),
      toDigitsCore_hex _ _ _ (by omega), if_neg (by omega),
      toDigitsCore_hex _ _ _ (by omega), if_pos (by omega)]
    have e1 : w / 16 / 16 = w / 256 := by omega
    have e2 : w / 16 / 16 / 16 = w / 4096 := by omega
    rw [e2, e1]

theorem stol_hexChar (a : Nat) (rest : List Char) (h : a < 16) :
    stol (a.digitChar :: rest) = stolDigits false (a.digitChar :: rest) := by
  interval_cases a <;> rfl

theorem isDigit_digitChar (a : Nat) (h : a < 16) : a.digitChar.isDigit = decide (a < 10) := by
  interval_cases a <;> rfl

theorem digitChar_value (a : Nat) (h : a < 10) : a.digitChar.toNat - 48 = a := by
  interval_cases a <;> rfl
theorem hexStr_ofNat (w : Nat) (h : w < 2 ^ 32) : hexStr (w : Int) = Nat.toDigits 16 w := by
  unfold hexStr
  have : ((w : Int) % 2 ^ 32).toNat = w := by omega
  rw [this]

theorem takeWhile_digitChar_pos (a : Nat) (rest : List Char) (h : a < 10) :
    (a.digitChar :: rest).takeWhile Char.isDigit = a.digitChar :: rest.takeWhile Char.isDigit := by
  rw [List.takeWhile_cons, isDigit_digitChar a (by omega)]
  simp [h]

theorem takeWhile_digitChar_neg (a : Nat) (rest : List Char) (h : 10 ≤ a) (h16 : a < 16) :
    (a.digitChar :: rest).takeWhile Char.isDigit = [] := by
  rw [List.takeWhile_cons, isDigit_digitChar a h16]
  simp [h]

theorem stolDigits_ok (s : List Char) (hne : s.takeWhile Char.isDigit ≠ [])
    (hv : decimalValue (s.takeWhile Char.isDigit) < 2 ^ 31) :
    stolDigits false s = Except.ok (decimalValue (s.takeWhile Char.isDigit) : Int) := by
  unfold stolDigits
  have h1 : (s.takeWhile Char.isDigit).isEmpty = false := by
    cases hs : s.takeWhile Char.isDigit with
    | nil => exact absurd hs hne
    | cons a l => rfl
  simp only [h1, Bool.false_eq_true, if_false]
  rw [if_neg]
  omega

theorem stolDigits_invalid (negative : Bool) (s : List Char)
    (h : s.takeWhile Char.isDigit = []) :
    stolDigits negative s = Except.error StolError.invalid_argument := by
  unfold stolDigits
  simp [h]

theorem decimalValue_cons (c : Char) (l : List Char) :
    decimalValue (c :: l) = 10 ^ l.length * (c.toNat - 48) + decimalValue l := by
  unfold decimalValue
  have key : ∀ (l : List Char) (acc : Nat),
      List.foldl (fun acc c => 10 * acc + (c.toNat - 48)) acc l
        = 10 ^ l.length * acc + List.foldl (fun acc c => 10 * acc + (c.toNat - 48)) 0 l := by
    intro l
    induction l with
    | nil => intro acc; simp
    | cons d l ih =>
      intro acc
      simp only [List.foldl_cons, List.length_cons]
      rw [ih (10 * acc + (d.toNat - 48)), ih (10 * 0 + (d.toNat - 48))]
      ring
  simp only [List.foldl_cons]
  rw [key]
  simp

theorem bcdDecode_decimal (w : Nat) (h : w < 65536) (h3 : w / 4096 < 10) (h2 : w / 256 % 16 < 10)
    (h1 : w / 16 % 16 < 10) (h0 : w % 16 < 10) :
    bcdDecode (w : Int) =
      Except.ok (1000 * (w / 4096) + 100 * (w / 256 % 16) + 10 * (w / 16 % 16) + w % 16) := by
  have fin : ∀ v : Nat, v < 10000 → ((v : Int) % 2 ^ 32).toNat = v := by
    intro v hv; omega
  unfold bcdDecode
  rw [hexStr_ofNat w (by omega), toDigits_hex16 w h]
  split_ifs with c1 c2 c3
  · have hw : w < 10 := by omega
    have tw : [w.digitChar].takeWhile Char.isDigit = [w.digitChar] := by
      simp only [takeWhile_digitChar_pos _ _ hw, List.takeWhile_nil]
    have dv : decimalValue [w.digitChar] = w := by
      simp [decimalValue_cons, digitChar_value _ hw, decimalValue]
    rw [stol_hexChar _ _ (by omega), stolDigits_ok _ (by rw [tw]; simp) (by rw [tw, dv]; omega),
      tw, dv]
    simp only [Except.map, fin w (by omega)]
    congr 1
    omega
  · have ha : w / 16 < 10 := by omega
    have tw : [(w / 16).digitChar, (w % 16).digitChar].takeWhile Char.isDigit
        = [(w / 16).digitChar, (w % 16).digitChar] := by
      simp only [takeWhile_digitChar_pos _ _ ha, takeWhile_digitChar_pos _ _ h0,
        List.takeWhile_nil]
    have dv : decimalValue [(w / 16).digitChar, (w % 16).digitChar]
        = 10 * (w / 16) + w % 16 := by
      simp [decimalValue_cons, digitChar_value _ ha, digitChar_value _ h0, decimalValue]
    rw [stol_hexChar _ _ (by omega), stolDigits_ok _ (by rw [tw]; simp) (by rw [tw, dv]; omega),
      tw, dv]
    simp only [Except.map, fin (10 * (w / 16) + w % 16) (by omega)]
    congr 1
    omega
  · have ha : w / 256 < 10 := by omega
    have tw : [(w / 256).digitChar, (w / 16 % 16).digitChar, (w % 16).digitChar].takeWhile
        Char.isDigit = [(w / 256).digitChar, (w / 16 % 16).digitChar, (w % 16).digitChar] := by
      simp only [takeWhile_digitChar_pos _ _ ha, takeWhile_digitChar_pos _ _ h1,
        takeWhile_digitChar_pos _ _ h0, List.takeWhile_nil]
    have dv : decimalValue [(w / 256).digitChar, (w / 16 % 16).digitChar, (w % 16).digitChar]
        = 100 * (w / 256) + 10 * (w / 16 % 16) + w % 16 := by
      simp [decimalValue_cons, digitChar_value _ ha, digitChar_value _ h1,
        digitChar_value _ h0, decimalValue]
      ring
    rw [stol_hexChar _ _ (by omega), stolDigits_ok _ (by rw [tw]; simp) (by rw [tw, dv]; omega),
      tw, dv]
    simp only [Except.map, fin (100 * (w / 256) + 10 * (w / 16 % 16) + w % 16) (by omega)]
    congr 1
    omega
  · have tw : [(w / 4096).digitChar, (w / 256 % 16).digitChar, (w / 16 % 16).digitChar,
        (w % 16).digitChar].takeWhile Char.isDigit
        = [(w / 4096).digitChar, (w / 256 % 16).digitChar, (w / 16 % 16).digitChar,
          (w % 16).digitChar] := by
      simp only [takeWhile_digitChar_pos _ _ h3, takeWhile_digitChar_pos _ _ h2,
        takeWhile_digitChar_pos _ _ h1, takeWhile_digitChar_pos _ _ h0, List.takeWhile_nil]
    have dv : decimalValue [(w / 4096).digitChar, (w / 256 % 16).digitChar,
        (w / 16 % 16).digitChar, (w % 16).digitChar]
        = 1000 * (w / 4096) + 100 * (w / 256 % 16) + 10 * (w / 16 % 16) + w % 16 := by
      simp [decimalValue_cons, digitChar_value _ h3, digitChar_value _ h2,
        digitChar_value _ h1, digitChar_value _ h0, decimalValue]
      ring
    rw [stol_hexChar _ _ (by omega), stolDigits_ok _ (by rw [tw]; simp) (by rw [tw, dv]; omega),
      tw, dv]
    simp only [Except.map,
      fin (1000 * (w / 4096) + 100 * (w / 256 % 16) + 10 * (w / 16 % 16) + w % 16) (by omega)]
theorem packDigits_four (n : Nat) (h : n ≤ 9999) :
    packDigits 8 n = n % 10 + 16 * (n / 10 % 10) + 256 * (n / 100 % 10) + 4096 * (n / 1000) := by
  have e1 : n / 10 / 10 = n / 100 := by omega
  have e2 : n / 100 / 10 = n / 1000 := by omega
  have e3 : n / 1000 / 10 = 0 := by omega
  simp only [packDigits, e1, e2, e3, Nat.zero_div, Nat.zero_mod]
  omega

theorem nibbles_of_pack (d0 d1 d2 d3 : Nat) (h0 : d0 < 16) (h1 : d1 < 16) (h2 : d2 < 16) :
    (d0 + 16 * d1 + 256 * d2 + 4096 * d3) % 16 = d0 ∧
      (d0 + 16 * d1 + 256 * d2 + 4096 * d3) / 16 % 16 = d1 ∧
      (d0 + 16 * d1 + 256 * d2 + 4096 * d3) / 256 % 16 = d2 ∧
      (d0 + 16 * d1 + 256 * d2 + 4096 * d3) / 4096 = d3 := by
  refine ⟨by omega, by omega, by omega, by omega⟩

theorem decimal_digits (n : Nat) (h : n ≤ 9999) :
    n = n % 10 + 10 * (n / 10 % 10) + 100 * (n / 100 % 10) + 1000 * (n / 1000) ∧
      n / 1000 < 10 := by
  omega

/-- C1: for every integer `n` with `0 <= n <= 9999`, writing `toBCDNumber(n)` in hexadecimal
and reading the digits as a decimal number, the decoding step of `processNumber`, gives
`n` back. -/
theorem bcd_round_trip (n : Nat) (h : n ≤ 9999) :
    bcdDecode (toBCDNumber (n : Int) : Nat) = Except.ok n := by
  rw [toBCDNumber_eq n (by omega), packDigits_four n h]
  have hd0 : n % 10 < 10 := Nat.mod_lt _ (by decide)
  have hd1 : n / 10 % 10 < 10 := Nat.mod_lt _ (by decide)
  have hd2 : n / 100 % 10 < 10 := Nat.mod_lt _ (by decide)
  obtain ⟨hn, hd3⟩ := decimal_digits n h
  generalize n % 10 = d0 at *
  generalize n / 10 % 10 = d1 at *
  generalize n / 100 % 10 = d2 at *
  generalize n / 1000 = d3 at *
  obtain ⟨e0, e1, e2, e3⟩ := nibbles_of_pack d0 d1 d2 d3 (by omega) (by omega) (by omega)
  rw [bcdDecode_decimal _ (by omega) (by omega) (by omega) (by omega) (by omega), e0, e1, e2,
    e3, hn]
  congr 1
  omega

theorem bcd_round_trip_witness :
    (1830 : Nat) ≤ 9999 ∧ bcdDecode (toBCDNumber ((1830 : Nat) : Int) : Nat) = Except.ok 1830 :=
  ⟨by decide, bcd_round_trip 1830 (by decide)⟩

/-- C2, counterexample: the 32-bit value 1 read under VER2 and written back is stored as 1000
in the write buffer, not as 1. -/
theorem ver2_round_trip_fails : encodeVer2 (decodeVer2 1 : Nat) ≠ 1 := by
  decide

/-- C2, amended: for every 32-bit `x`, the VER2 write transform applied to the VER2 read
transform of `x` is `1000 * x` reduced modulo `2 ^ 32`; it gives `x` back only for
`x = 0`. -/
theorem ver2_encode_decode (x : Nat) (h : x < 2 ^ 32) :
    encodeVer2 (decodeVer2 x : Nat) = 1000 * x % 2 ^ 32 ∧
      (encodeVer2 (decodeVer2 x : Nat) = x ↔ x = 0) := by
  have e : encodeVer2 (decodeVer2 x : Nat) = 1000 * x % 2 ^ 32 := by
    unfold encodeVer2 decodeVer2
    rw [Nat.mod_eq_of_lt h]
    omega
  refine ⟨e, ?_⟩
  rw [e]
  constructor
  · intro hx
    have hdvd : 2 ^ 32 ∣ 999 * x := by
      have h1 : 1000 * x % 2 ^ 32 = x % 2 ^ 32 := by rw [hx, Nat.mod_eq_of_lt h]
      have h2 : (2 ^ 32 : Nat) ∣ 1000 * x - x := (Nat.modEq_iff_dvd' (by omega)).mp h1.symm
      have h3 : 1000 * x - x = 999 * x := by omega
      rwa [h3] at h2
    have hco : Nat.Coprime (2 ^ 32) 999 := by norm_num
    have := hco.dvd_of_dvd_mul_left hdvd
    exact Nat.eq_zero_of_dvd_of_lt this h
  · intro hx
    subst hx
    rfl

theorem ver2_encode_decode_witness :
    encodeVer2 (decodeVer2 118300 : Nat) = 1000 * 118300 % 2 ^ 32 ∧
      (encodeVer2 (decodeVer2 118300 : Nat) = 118300 ↔ 118300 = 0) :=
  ver2_encode_decode 118300 (by norm_num)
/-- C3: when the status is NO_CONNECTION or the API version is UNKNOWN, `ReadFrequencyInfo`,
`SetCom1Frequency` and `SetCom2Frequency` return `requestStatus = false` and leave the
whole state as it was: the log of transport calls gains no entry, and status, API
version and cached frequencies are unchanged. -/
theorem gate_fails_fast (s : State) (frequency : Int)
    (h : s.status = NO_CONNECTION ∨ s.apiVersion = API_UNKNOWN) :
    (∃ res, ReadFrequencyInfo s = Except.ok (s, res) ∧ res.requestStatus = false) ∧
      ((SetCom1Frequency s frequency).1 = s ∧
        (SetCom1Frequency s frequency).2.requestStatus = false) ∧
      ((SetCom2Frequency s frequency).1 = s ∧
        (SetCom2Frequency s frequency).2.requestStatus = false) := by
  by_cases hc : s.status = CONNECTED
  · have hv : s.apiVersion = API_UNKNOWN := by
      rcases h with h | h
      · rw [hc] at h; cases h
      · exact h
    refine ⟨?_, ?_, ?_⟩
    · exact ⟨{ errMessage := "Unsupported FSUIPC api version" },
        by simp [ReadFrequencyInfo, hc, hv, pure, Except.pure], rfl⟩
    · simp [SetCom1Frequency, hc, hv]
    · simp [SetCom2Frequency, hc, hv]
  · refine ⟨?_, ?_, ?_⟩
    · exact ⟨{ errMessage := "FSUIPC not connected" },
        by simp [ReadFrequencyInfo, hc, pure, Except.pure], rfl⟩
    · simp [SetCom1Frequency, hc]
    · simp [SetCom2Frequency, hc]

theorem gate_fails_fast_witness :
    (∃ res, ReadFrequencyInfo (State.initial (Transport.refusing "no simulator"))
        = Except.ok (State.initial (Transport.refusing "no simulator"), res) ∧
        res.requestStatus = false) ∧
      ((SetCom1Frequency (State.initial (Transport.refusing "no simulator")) 118300).1
          = State.initial (Transport.refusing "no simulator") ∧
        (SetCom1Frequency (State.initial (Transport.refusing "no simulator")) 118300).2.requestStatus
          = false) ∧
      ((SetCom2Frequency (State.initial (Transport.refusing "no simulator")) 118300).1
          = State.initial (Transport.refusing "no simulator") ∧
        (SetCom2Frequency (State.initial (Transport.refusing "no simulator")) 118300).2.requestStatus
          = false) :=
  gate_fails_fast (State.initial (Transport.refusing "no simulator")) 118300 (Or.inl rfl)
theorem readFrequencyVer1_frame (s s2 : State) (h : readFrequencyVer1 s = Except.ok s2) :
    s2.status = s.status ∧ s2.apiVersion = s.apiVersion ∧
      s2.com1ActiveLast = s.com1ActiveLast ∧ s2.com1StandbyLast = s.com1StandbyLast ∧
      s2.com2ActiveLast = s.com2ActiveLast ∧ s2.com2StandbyLast = s.com2StandbyLast := by
  unfold readFrequencyVer1 at h
  simp only [bind, Except.bind, pure, Except.pure] at h
  split at h
  · cases h
  · split at h
    · cases h
    · split at h
      · cases h
      · split at h
        · cases h
        · cases h
          exact ⟨rfl, rfl, rfl, rfl, rfl, rfl⟩

theorem readFrequencyVer2_frame (s : State) :
    (readFrequencyVer2 s).status = s.status ∧ (readFrequencyVer2 s).apiVersion = s.apiVersion ∧
      (readFrequencyVer2 s).com1ActiveLast = s.com1ActiveLast ∧
      (readFrequencyVer2 s).com1StandbyLast = s.com1StandbyLast ∧
      (readFrequencyVer2 s).com2ActiveLast = s.com2ActiveLast ∧
      (readFrequencyVer2 s).com2StandbyLast = s.com2StandbyLast :=
  ⟨rfl, rfl, rfl, rfl, rfl, rfl⟩

theorem disconnect_current (s : State) :
    (disconnect s).com1Active = s.com1Active ∧ (disconnect s).com1Standby = s.com1Standby ∧
      (disconnect s).com2Active = s.com2Active ∧ (disconnect s).com2Standby = s.com2Standby ∧
      (disconnect s).radioSwitch = s.radioSwitch := by
  unfold disconnect
  split <;> exact ⟨rfl, rfl, rfl, rfl, rfl⟩

theorem processFrequencyData_current (s : State) :
    (processFrequencyData s).com1Active = s.com1Active ∧
      (processFrequencyData s).com1Standby = s.com1Standby ∧
      (processFrequencyData s).com2Active = s.com2Active ∧
      (processFrequencyData s).com2Standby = s.com2Standby ∧
      (processFrequencyData s).radioSwitch = s.radioSwitch := by
  unfold processFrequencyData
  split
  · exact disconnect_current _
  · refine ⟨?_, ?_, ?_, ?_, ?_⟩ <;> (simp only []; split_ifs <;> rfl)

theorem ReadFrequencyInfo_ok (s s' : State) (res : Frequencies) (hc : s.status = CONNECTED)
    (hv : s.apiVersion ≠ API_UNKNOWN) (h : ReadFrequencyInfo s = Except.ok (s', res)) :
    ∃ s2 : State,
      (if s.apiVersion = API_VER1 then
          readFrequencyVer1 { s with client := s.client.readBYTE Offset.radioSwitch }
            = Except.ok s2
        else s2 = readFrequencyVer2 { s with client := s.client.readBYTE Offset.radioSwitch }) ∧
      s' = processFrequencyData s2 ∧
      res.frequency = [s2.com1Active, s2.com1Standby, s2.com2Active, s2.com2Standby] ∧
      res.frequencyFlag = s2.radioSwitch % 2 ^ 8 ∧
      (res.requestStatus = true ↔ s'.client.getLastError = Error.OK) := by
  unfold ReadFrequencyInfo at h
  rw [if_neg (not_not.mpr hc), if_neg hv] at h
  simp only [bind, Except.bind, pure, Except.pure] at h
  by_cases h1 : s.apiVersion = API_VER1
  · rw [if_pos h1] at h
    simp only [if_pos h1]
    cases hr : readFrequencyVer1 { s with client := s.client.readBYTE Offset.radioSwitch } with
    | error e => rw [hr] at h; cases h
    | ok s2 =>
      rw [hr] at h
      refine ⟨s2, rfl, ?_⟩
      obtain ⟨c1, c2, c3, c4, c5⟩ := processFrequencyData_current s2
      simp only [] at h
      split_ifs at h with he
      · cases h
        refine ⟨rfl, ?_, ?_, ?_⟩
        · simp [c1, c2, c3, c4]
        · simp [c5]
        · simp [he]
      · cases h
        refine ⟨rfl, ?_, ?_, ?_⟩
        · simp [c1, c2, c3, c4]
        · simp [c5]
        · simp [he]
  · rw [if_neg h1] at h
    simp only [if_neg h1]
    refine ⟨_, rfl, ?_⟩
    obtain ⟨c1, c2, c3, c4, c5⟩ := processFrequencyData_current
      (readFrequencyVer2 { s with client := s.client.readBYTE Offset.radioSwitch })
    split_ifs at h with he
    · cases h
      refine ⟨rfl, ?_, ?_, ?_⟩
      · simp [c1, c2, c3, c4]
      · simp [c5]
      · simp [he]
    · cases h
      refine ⟨rfl, ?_, ?_, ?_⟩
      · simp [c1, c2, c3, c4]
      · simp [c5]
      · simp [he]
theorem read_cycle_status (s s2 : State)
    (h : if s.apiVersion = API_VER1 then
        readFrequencyVer1 { s with client := s.client.readBYTE Offset.radioSwitch } = Except.ok s2
      else s2 = readFrequencyVer2 { s with client := s.client.readBYTE Offset.radioSwitch }) :
    s2.status = s.status ∧ s2.apiVersion = s.apiVersion ∧
      s2.com1ActiveLast = s.com1ActiveLast ∧ s2.com1StandbyLast = s.com1StandbyLast ∧
      s2.com2ActiveLast = s.com2ActiveLast ∧ s2.com2StandbyLast = s.com2StandbyLast := by
  split_ifs at h
  · exact readFrequencyVer1_frame { s with client := s.client.readBYTE Offset.radioSwitch } _ h
  · rw [h]
    exact readFrequencyVer2_frame { s with client := s.client.readBYTE Offset.radioSwitch }

/-- C4: from a CONNECTED state with a known API version, a `ReadFrequencyInfo` cycle whose four
decoded frequencies are all 0 ends with status NO_CONNECTION, API version UNKNOWN and
the four cached last-known frequencies equal to 0. -/
theorem all_zero_read_disconnects (s s' : State) (res : Frequencies)
    (hc : s.status = CONNECTED) (hv : s.apiVersion ≠ API_UNKNOWN)
    (h : ReadFrequencyInfo s = Except.ok (s', res)) (hz : res.frequency = [0, 0, 0, 0]) :
    s'.status = NO_CONNECTION ∧ s'.apiVersion = API_UNKNOWN ∧
      s'.com1ActiveLast = 0 ∧ s'.com1StandbyLast = 0 ∧
      s'.com2ActiveLast = 0 ∧ s'.com2StandbyLast = 0 := by
  obtain ⟨s2, hread, hs', hfreq, -, -⟩ := ReadFrequencyInfo_ok s s' res hc hv h
  obtain ⟨hst, -, -, -, -, -⟩ := read_cycle_status s s2 hread
  rw [hfreq] at hz
  simp only [List.cons.injEq, and_true] at hz
  obtain ⟨z1, z2, z3, z4⟩ := hz
  have hcon : s2.status = CONNECTED := by rw [hst, hc]
  rw [hs']
  unfold processFrequencyData
  rw [if_pos ⟨z1, z2, z3, z4⟩]
  unfold disconnect
  simp only []
  rw [if_pos hcon]
  exact ⟨rfl, rfl, rfl, rfl, rfl, rfl⟩

theorem all_zero_read_disconnects_witness :
    ∃ (s' : State) (res : Frequencies),
      ReadFrequencyInfo (State.connected (Transport.steady API_VER2 Error.OK "" 0) API_VER2
        118300000) = Except.ok (s', res) ∧
      res.frequency = [0, 0, 0, 0] ∧
      s'.status = NO_CONNECTION ∧ s'.apiVersion = API_UNKNOWN ∧
      s'.com1ActiveLast = 0 ∧ s'.com1StandbyLast = 0 ∧
      s'.com2ActiveLast = 0 ∧ s'.com2StandbyLast = 0 :=
  ⟨_, _, rfl, rfl,
    all_zero_read_disconnects
      (State.connected (Transport.steady API_VER2 Error.OK "" 0) API_VER2 118300000) _ _
      rfl (by decide) rfl rfl⟩
theorem packedBCD_eq (m : Nat) :
    packedBCD m = m % 10 + 16 * (m / 10 % 10) + 256 * (m / 100 % 10) + 4096 * (m / 1000 % 10) := by
  simp [packedBCD, decimalDigit, List.range_succ, Nat.shiftLeft_eq]
  omega

theorem toBCDNumber_packed (m : Nat) (h : m ≤ 9999) :
    toBCDNumber (m : Int) % 2 ^ 16 = packedBCD m := by
  have e : m / 1000 % 10 = m / 1000 := by omega
  rw [toBCDNumber_eq m (by omega), packDigits_four m h, packedBCD_eq, e]
  have hd0 : m % 10 < 10 := Nat.mod_lt _ (by decide)
  have hd1 : m / 10 % 10 < 10 := Nat.mod_lt _ (by decide)
  have hd2 : m / 100 % 10 < 10 := Nat.mod_lt _ (by decide)
  have hd3 : m / 1000 < 10 := by omega
  apply Nat.mod_eq_of_lt
  omega

/-- C5: in state CONNECTED with API version VER1, `SetCom1Frequency(f)` for
`100000 < f <= 199999` adds to the transport log exactly one WORD write, to the
COM1-active VER1 offset, of the packed BCD of `(f - 100000) / 10`, followed by the
process step; `SetCom1Frequency(118300)` writes `0x1830`. -/
theorem set_com1_ver1_write (s : State) (f : Int) (hc : s.status = CONNECTED)
    (hv : s.apiVersion = API_VER1) (h1 : 100000 < f) (h2 : f ≤ 199999) :
    (SetCom1Frequency s f).1.client.calls = s.client.calls ++
        [Call.writeWORD Offset.com1ActiveVer1 (packedBCD ((f - 100000) / 10).toNat),
          Call.process] ∧
      (SetCom1Frequency s 118300).1.client.calls = s.client.calls ++
        [Call.writeWORD Offset.com1ActiveVer1 0x1830, Call.process] := by
  have key : ∀ f : Int, 100000 < f → f ≤ 199999 →
      (SetCom1Frequency s f).1.client.calls = s.client.calls ++
        [Call.writeWORD Offset.com1ActiveVer1 (packedBCD ((f - 100000) / 10).toNat),
          Call.process] := by
    intro f h1 h2
    have hm : (f - 100000).tdiv 10 = (((f - 100000) / 10).toNat : Int) := by
      rw [Int.tdiv_eq_ediv (by omega) (by norm_num)]
      omega
    have hb : ((f - 100000) / 10).toNat ≤ 9999 := by omega
    unfold SetCom1Frequency
    rw [if_neg (not_not.mpr hc)]
    simp only [hv, if_pos h1, hm, toBCDNumber_packed _ hb]
    split_ifs <;>
      simp [State.process, FSUIPCClient.process, FSUIPCClient.writeWORD, FSUIPCClient.record]
  refine ⟨key f h1 h2, ?_⟩
  rw [key 118300 (by norm_num) (by norm_num)]
  rfl

theorem set_com1_ver1_write_witness :
    (SetCom1Frequency (State.connected (Transport.steady API_VER1 Error.OK "" 0) API_VER1 0)
        122800).1.client.calls = [] ++
        [Call.writeWORD Offset.com1ActiveVer1 (packedBCD ((122800 - 100000 : Int) / 10).toNat),
          Call.process] ∧
      (SetCom1Frequency (State.connected (Transport.steady API_VER1 Error.OK "" 0) API_VER1 0)
        118300).1.client.calls = [] ++
        [Call.writeWORD Offset.com1ActiveVer1 0x1830, Call.process] :=
  set_com1_ver1_write (State.connected (Transport.steady API_VER1 Error.OK "" 0) API_VER1 0)
    122800 rfl rfl (by norm_num) (by norm_num)

/-- C6: in state CONNECTED with API version VER2, `SetCom1Frequency(f)` for
`0 <= f <= 2147483` adds to the transport log exactly one DWORD write of `f * 1000` to
the COM1-active VER2 offset, followed by one process step; `SetCom1Frequency(118300)`
writes 118300000. -/
theorem set_com1_ver2_write (s : State) (f : Int) (hc : s.status = CONNECTED)
    (hv : s.apiVersion = API_VER2) (h1 : 0 ≤ f) (h2 : f ≤ 2147483) :
    (SetCom1Frequency s f).1.client.calls = s.client.calls ++
        [Call.writeDWORD Offset.com1ActiveVer2 (f * 1000).toNat, Call.process] ∧
      (SetCom1Frequency s 118300).1.client.calls = s.client.calls ++
        [Call.writeDWORD Offset.com1ActiveVer2 118300000, Call.process] := by
  have key : ∀ f : Int, 0 ≤ f → f ≤ 2147483 →
      (SetCom1Frequency s f).1.client.calls = s.client.calls ++
        [Call.writeDWORD Offset.com1ActiveVer2 (f * 1000).toNat, Call.process] := by
    intro f h1 h2
    have he : encodeVer2 f = (f * 1000).toNat := by
      unfold encodeVer2
      congr 1
      omega
    unfold SetCom1Frequency
    rw [if_neg (not_not.mpr hc)]
    simp only [hv, he]
    split_ifs <;>
      simp [State.process, FSUIPCClient.process, FSUIPCClient.writeDWORD, FSUIPCClient.record]
  refine ⟨key f h1 h2, ?_⟩
  rw [key 118300 (by norm_num) (by norm_num)]
  rfl

theorem set_com1_ver2_write_witness :
    (SetCom1Frequency (State.connected (Transport.steady API_VER2 Error.OK "" 0) API_VER2 0)
        2147483).1.client.calls = [] ++
        [Call.writeDWORD Offset.com1ActiveVer2 ((2147483 : Int) * 1000).toNat, Call.process] ∧
      (SetCom1Frequency (State.connected (Transport.steady API_VER2 Error.OK "" 0) API_VER2 0)
        118300).1.client.calls = [] ++
        [Call.writeDWORD Offset.com1ActiveVer2 118300000, Call.process] :=
  set_com1_ver2_write (State.connected (Transport.steady API_VER2 Error.OK "" 0) API_VER2 0)
    2147483 rfl rfl (by norm_num) (by norm_num)
theorem bcdValue_eq (w : Nat) :
    bcdValue w = w % 16 + 10 * (w / 16 % 16) + 100 * (w / 256 % 16) + 1000 * (w / 4096 % 16) := by
  simp [bcdValue, nibble, List.range_succ]
  omega

theorem rebase_small (n : Nat) (h : n ≤ 99999) :
    rebase n = (10 * n + 100000 + 5 * (n % 5) / 2) * 1000 := by
  unfold rebase
  have h5 : n % 5 < 5 := Nat.mod_lt _ (by decide)
  have e1 : (n * 10 + 100000) % 2 ^ 32 = 10 * n + 100000 := by omega
  have e2 : (2 * (10 * n + 100000) + 5 * (n % 5)) / 2 = 10 * n + 100000 + 5 * (n % 5) / 2 := by
    omega
  have e3 : (10 * n + 100000 + 5 * (n % 5) / 2) % 2 ^ 32 = 10 * n + 100000 + 5 * (n % 5) / 2 := by
    omega
  simp only [e1, e2, e3]
  omega

/-- C7, counterexample: the wire value `0x1831` decodes to `n = 1831`, for which the exact
formula gives 118312500, but `processNumber` returns 118312000. -/
theorem processNumber_not_exact :
    processNumber 0x1831 = Except.ok 118312000 ∧
      exactFrequency (bcdValue 0x1831) = 118312500 ∧
      ((118312000 : Nat) : ℚ) ≠ exactFrequency (bcdValue 0x1831) := by
  have hb : bcdValue 0x1831 = 1831 := by decide
  have he : exactFrequency 1831 = 118312500 := by
    unfold exactFrequency
    norm_num
  refine ⟨by decide, ?_, ?_⟩
  · rw [hb, he]
  · rw [hb, he]
    norm_num

/-- C7, amended: for a 16-bit wire value whose four nibbles are decimal digits, with `n` the
BCD-decoded integer, `processNumber` returns
`(10 * n + 100000 + floor(2.5 * (n mod 5))) * 1000`: the half of the correction is
dropped before the scaling by 1000, so the result is the exact value when `n mod 5`
is even and 500 below it when `n mod 5` is odd. -/
theorem processNumber_decimal (w : Nat) (h : w < 65536) (hd : ∀ p, p < 4 → nibble w p < 10) :
    processNumber (w : Int)
        = Except.ok ((10 * bcdValue w + 100000 + 5 * (bcdValue w % 5) / 2) * 1000) ∧
      (((10 * bcdValue w + 100000 + 5 * (bcdValue w % 5) / 2) * 1000 : Nat) : ℚ)
        = exactFrequency (bcdValue w) - 500 * ((bcdValue w % 5 % 2 : Nat) : ℚ) := by
  have h0 : w % 16 < 10 := by simpa [nibble] using hd 0 (by decide)
  have h1 : w / 16 % 16 < 10 := by simpa [nibble] using hd 1 (by decide)
  have h2 : w / 256 % 16 < 10 := by simpa [nibble] using hd 2 (by decide)
  have h3 : w / 4096 % 16 < 10 := by simpa [nibble] using hd 3 (by decide)
  have e3 : w / 4096 % 16 = w / 4096 := by omega
  have hn : bcdValue w ≤ 9999 := by rw [bcdValue_eq]; omega
  constructor
  · unfold processNumber
    rw [bcdDecode_decimal w h (by omega) h2 h1 h0]
    have : 1000 * (w / 4096) + 100 * (w / 256 % 16) + 10 * (w / 16 % 16) + w % 16
        = bcdValue w := by rw [bcdValue_eq]; omega
    rw [this]
    simp only [Except.map]
    rw [rebase_small _ (by omega)]
  · generalize bcdValue w = n
    unfold exactFrequency
    have h5 : n % 5 < 5 := Nat.mod_lt _ (by decide)
    generalize n % 5 = k at h5
    interval_cases k <;> push_cast <;> norm_num <;> ring

theorem processNumber_decimal_witness :
    processNumber ((0x1831 : Nat) : Int)
        = Except.ok ((10 * bcdValue 0x1831 + 100000 + 5 * (bcdValue 0x1831 % 5) / 2) * 1000) ∧
      (((10 * bcdValue 0x1831 + 100000 + 5 * (bcdValue 0x1831 % 5) / 2) * 1000 : Nat) : ℚ)
        = exactFrequency (bcdValue 0x1831) - 500 * ((bcdValue 0x1831 % 5 % 2 : Nat) : ℚ) :=
  processNumber_decimal 0x1831 (by decide) (by decide)
theorem digit_value_le (c : Char) (h : c.isDigit = true) : c.toNat - 48 ≤ 9 := by
  simp only [Char.isDigit, Bool.and_eq_true, decide_eq_true_eq] at h
  have h2 : c.val.toNat ≤ 57 := h.2
  show c.val.toNat - 48 ≤ 9
  omega

theorem decimalValue_lt (l : List Char) (h : ∀ c ∈ l, c.isDigit = true) :
    decimalValue l < 10 ^ l.length := by
  induction l with
  | nil => simp [decimalValue]
  | cons c l ih =>
    have hc := digit_value_le c (h c (List.mem_cons_self _ _))
    have hl := ih (fun d hd => h d (List.mem_cons_of_mem _ hd))
    rw [decimalValue_cons, List.length_cons, pow_succ]
    have hp : 0 < 10 ^ l.length := Nat.pow_pos (by decide)
    nlinarith

theorem stol_hex_head (a : Nat) (rest : List Char) (ha : a < 16) (hlen : rest.length ≤ 7) :
    (a < 10 → ∃ v : Nat, v < 10 ^ (rest.length + 1) ∧
        stol (a.digitChar :: rest) = Except.ok (v : Int)) ∧
      (10 ≤ a → stol (a.digitChar :: rest) = Except.error StolError.invalid_argument) := by
  rw [stol_hexChar a rest ha]
  constructor
  · intro h10
    have hne : (a.digitChar :: rest).takeWhile Char.isDigit ≠ [] := by
      rw [takeWhile_digitChar_pos a rest h10]
      simp
    have hlt : decimalValue ((a.digitChar :: rest).takeWhile Char.isDigit)
        < 10 ^ (rest.length + 1) := by
      have h1 := decimalValue_lt ((a.digitChar :: rest).takeWhile Char.isDigit)
        (fun c hc => List.mem_takeWhile_imp hc)
      have h2 : ((a.digitChar :: rest).takeWhile Char.isDigit).length ≤ rest.length + 1 := by
        have := (List.takeWhile_sublist (l := a.digitChar :: rest) Char.isDigit).length_le
        simpa using this
      exact lt_of_lt_of_le h1 (Nat.pow_le_pow_right (by decide) h2)
    have h8 : (10 : Nat) ^ (rest.length + 1) ≤ 10 ^ 8 :=
      Nat.pow_le_pow_right (by decide) (by omega)
    exact ⟨_, hlt, stolDigits_ok _ hne (by omega)⟩
  · intro h10
    exact stolDigits_invalid _ _ (takeWhile_digitChar_neg a rest h10 ha)

theorem bcdDecode_word (w : Nat) (h : w < 65536) :
    (leadingNibble w < 10 → ∃ v : Nat, v ≤ 9999 ∧ bcdDecode (w : Int) = Except.ok v) ∧
      (10 ≤ leadingNibble w →
        bcdDecode (w : Int) = Except.error StolError.invalid_argument) := by
  have fin : ∀ v : Nat, v < 10000 → ((v : Int) % 2 ^ 32).toNat = v := by
    intro v hv; omega
  unfold bcdDecode leadingNibble
  rw [hexStr_ofNat w (by omega), toDigits_hex16 w h]
  split_ifs with c1 c2 c3
  · obtain ⟨hp, hn⟩ := stol_hex_head w [] (by omega) (by simp)
    constructor
    · intro hl
      obtain ⟨v, hv, e⟩ := hp hl
      simp only [List.length_nil] at hv
      exact ⟨v, by omega, by rw [e]; simp only [Except.map, fin v (by omega)]⟩
    · intro hl
      rw [hn hl]; rfl
  · obtain ⟨hp, hn⟩ := stol_hex_head (w / 16) [(w % 16).digitChar] (by omega) (by simp)
    constructor
    · intro hl
      obtain ⟨v, hv, e⟩ := hp hl
      simp only [List.length_cons, List.length_nil] at hv
      exact ⟨v, by omega, by rw [e]; simp only [Except.map, fin v (by omega)]⟩
    · intro hl
      rw [hn hl]; rfl
  · obtain ⟨hp, hn⟩ := stol_hex_head (w / 256) [(w / 16 % 16).digitChar, (w % 16).digitChar]
      (by omega) (by simp)
    constructor
    · intro hl
      obtain ⟨v, hv, e⟩ := hp hl
      simp only [List.length_cons, List.length_nil] at hv
      exact ⟨v, by omega, by rw [e]; simp only [Except.map, fin v (by omega)]⟩
    · intro hl
      rw [hn hl]; rfl
  · obtain ⟨hp, hn⟩ := stol_hex_head (w / 4096)
      [(w / 256 % 16).digitChar, (w / 16 % 16).digitChar, (w % 16).digitChar] (by omega) (by simp)
    constructor
    · intro hl
      obtain ⟨v, hv, e⟩ := hp hl
      simp only [List.length_cons, List.length_nil] at hv
      exact ⟨v, by omega, by rw [e]; simp only [Except.map, fin v (by omega)]⟩
    · intro hl
      rw [hn hl]; rfl

/-- C8, counterexample: on the wire value `0xA000` the hexadecimal rendering is `a000`, on which
`std::stol` finds no digit and throws `std::invalid_argument`; `processNumber` does not
return. -/
theorem processNumber_raises : processNumber 0xA000 = Except.error StolError.invalid_argument := by
  decide

/-- C8, amended: for every 16-bit wire value whose most significant hexadecimal digit is a
decimal digit, which includes 0 and every valid BCD value, `processNumber` returns a
number, later hexadecimal letters being ignored together with what follows them; when
the most significant digit is one of A to F it throws `std::invalid_argument`. -/
theorem processNumber_word (w : Nat) (h : w < 65536) :
    (leadingNibble w < 10 → ∃ v : Nat, processNumber (w : Int) = Except.ok v) ∧
      (10 ≤ leadingNibble w →
        processNumber (w : Int) = Except.error StolError.invalid_argument) := by
  obtain ⟨hp, hn⟩ := bcdDecode_word w h
  unfold processNumber
  constructor
  · intro hl
    obtain ⟨v, -, e⟩ := hp hl
    exact ⟨rebase v, by rw [e]; rfl⟩
  · intro hl
    rw [hn hl]; rfl

theorem processNumber_word_witness :
    (leadingNibble 0x1A30 < 10 ∧ ∃ v : Nat, processNumber ((0x1A30 : Nat) : Int) = Except.ok v) ∧
      (10 ≤ leadingNibble 0xFFFF ∧
        processNumber ((0xFFFF : Nat) : Int) = Except.error StolError.invalid_argument) :=
  ⟨⟨by decide, (processNumber_word 0x1A30 (by decide)).1 (by decide)⟩,
    ⟨by decide, (processNumber_word 0xFFFF (by decide)).2 (by decide)⟩⟩
theorem CloseFSUIPCClient_connected (s : State) (hc : s.status = CONNECTED) :
    (CloseFSUIPCClient s).1.status = NO_CONNECTION ∧
      (CloseFSUIPCClient s).1.apiVersion = API_UNKNOWN ∧
      (CloseFSUIPCClient s).1.client.calls = s.client.calls ++ [Call.close] ∧
      (CloseFSUIPCClient s).1.com1ActiveLast = s.com1ActiveLast ∧
      (CloseFSUIPCClient s).1.com1StandbyLast = s.com1StandbyLast ∧
      (CloseFSUIPCClient s).1.com2ActiveLast = s.com2ActiveLast ∧
      (CloseFSUIPCClient s).1.com2StandbyLast = s.com2StandbyLast := by
  unfold CloseFSUIPCClient disconnect
  simp only [if_pos hc]
  split_ifs <;> exact ⟨rfl, rfl, rfl, rfl, rfl, rfl, rfl⟩

/-- C9: with a simulator that accepts `open`, negotiates VER2 and delivers 118300000 Hz on
every frequency offset, `OpenFSUIPCClient` then `ReadFrequencyInfo` reach a CONNECTED
state whose four cached frequencies are 118300000; `CloseFSUIPCClient` then sets the
status to NO_CONNECTION and the API version to UNKNOWN but leaves the four cached
frequencies at 118300000 instead of 0. -/
theorem close_keeps_cache :
    ∃ (s1 s2 : State) (r1 : Version) (r2 : Frequencies),
      OpenFSUIPCClient (State.initial (Transport.steady API_VER2 Error.OK "" 118300000))
        = (s1, r1) ∧
      ReadFrequencyInfo s1 = Except.ok (s2, r2) ∧
      s2.status = CONNECTED ∧
      (CloseFSUIPCClient s2).1.status = NO_CONNECTION ∧
      (CloseFSUIPCClient s2).1.apiVersion = API_UNKNOWN ∧
      (CloseFSUIPCClient s2).1.com1ActiveLast = 118300000 ∧
      (CloseFSUIPCClient s2).1.com1StandbyLast = 118300000 ∧
      (CloseFSUIPCClient s2).1.com2ActiveLast = 118300000 ∧
      (CloseFSUIPCClient s2).1.com2StandbyLast = 118300000 :=
  ⟨_, _, _, _, rfl, rfl, rfl, rfl, rfl, rfl, rfl, rfl, rfl⟩

theorem code_mod (v : ApiVersion) : v.code % 2 ^ 8 = v.code := by
  cases v <;> rfl

/-- C10: if the transport open succeeds, `OpenFSUIPCClient` sets the status to CONNECTED and
stores the version negotiated by the transport, which is also the `apiVersion` field of
the result; if the transport open fails, status, API version and cached frequencies
are unchanged, `requestStatus` is false and `errMessage` is the last error message of
the transport. -/
theorem open_client (s : State) :
    (s.client.open_.1 = true →
        (OpenFSUIPCClient s).1.status = CONNECTED ∧
        (OpenFSUIPCClient s).1.apiVersion = s.client.open_.2.getApiVersion ∧
        (OpenFSUIPCClient s).2.apiVersion = s.client.open_.2.getApiVersion.code) ∧
      (s.client.open_.1 = false →
        (OpenFSUIPCClient s).1.status = s.status ∧
        (OpenFSUIPCClient s).1.apiVersion = s.apiVersion ∧
        (OpenFSUIPCClient s).1.com1ActiveLast = s.com1ActiveLast ∧
        (OpenFSUIPCClient s).1.com1StandbyLast = s.com1StandbyLast ∧
        (OpenFSUIPCClient s).1.com2ActiveLast = s.com2ActiveLast ∧
        (OpenFSUIPCClient s).1.com2StandbyLast = s.com2StandbyLast ∧
        (OpenFSUIPCClient s).2.requestStatus = false ∧
        (OpenFSUIPCClient s).2.errMessage = s.client.open_.2.getLastErrorMessage) := by
  constructor
  · intro h
    unfold OpenFSUIPCClient
    simp only [h, Bool.not_true, Bool.false_eq_true, if_false]
    split <;> exact ⟨rfl, rfl, code_mod _⟩
  · intro h
    unfold OpenFSUIPCClient
    simp [h]

theorem open_client_witness :
    ((OpenFSUIPCClient (State.initial (Transport.steady API_VER1 Error.OK "" 0))).1.status
          = CONNECTED ∧
        (OpenFSUIPCClient (State.initial (Transport.steady API_VER1 Error.OK "" 0))).1.apiVersion
          = API_VER1 ∧
        (OpenFSUIPCClient (State.initial (Transport.steady API_VER1 Error.OK "" 0))).2.apiVersion
          = API_VER1.code) ∧
      ((OpenFSUIPCClient (State.initial (Transport.refusing "no simulator"))).1.status
          = NO_CONNECTION ∧
        (OpenFSUIPCClient (State.initial (Transport.refusing "no simulator"))).2.requestStatus
          = false ∧
        (OpenFSUIPCClient (State.initial (Transport.refusing "no simulator"))).2.errMessage
          = "no simulator") :=
  ⟨(open_client (State.initial (Transport.steady API_VER1 Error.OK "" 0))).1 rfl,
    ((open_client (State.initial (Transport.refusing "no simulator"))).2 rfl).1,
    ((open_client (State.initial (Transport.refusing "no simulator"))).2 rfl).2.2.2.2.2.2.1,
    ((open_client (State.initial (Transport.refusing "no simulator"))).2 rfl).2.2.2.2.2.2.2⟩
theorem SetCom1Frequency_ver1 (s : State) (f : Int) (hc : s.status = CONNECTED)
    (hv : s.apiVersion = API_VER1) :
    SetCom1Frequency s f =
      (({ s with
          com1Ver1 := toBCDNumber ((if f > 100000 then f - 100000 else f).tdiv 10) % 2 ^ 16
          client := s.client.writeWORD Offset.com1ActiveVer1
            (toBCDNumber ((if f > 100000 then f - 100000 else f).tdiv 10) % 2 ^ 16) }).process,
        if (s.client.writeWORD Offset.com1ActiveVer1
            (toBCDNumber ((if f > 100000 then f - 100000 else f).tdiv 10) % 2 ^ 16)).process.getLastError = Error.OK
        then { requestStatus := true }
        else { errMessage := (s.client.writeWORD Offset.com1ActiveVer1
            (toBCDNumber ((if f > 100000 then f - 100000 else f).tdiv 10) % 2 ^ 16)).process.getLastErrorMessage }) := by
  unfold SetCom1Frequency
  rw [if_neg (not_not.mpr hc)]
  simp only [hv]
  generalize toBCDNumber ((if f > 100000 then f - 100000 else f).tdiv 10) % 2 ^ 16 = w
  split_ifs with h1 h2 h2
  · rfl
  · exact absurd h1 h2
  · exact absurd h2 h1
  · rfl

theorem SetCom1Frequency_ver2 (s : State) (f : Int) (hc : s.status = CONNECTED)
    (hv : s.apiVersion = API_VER2) :
    SetCom1Frequency s f =
      (({ s with
          com1Ver2 := encodeVer2 f
          client := s.client.writeDWORD Offset.com1ActiveVer2
            (encodeVer2 f) }).process,
        if (s.client.writeDWORD Offset.com1ActiveVer2
            (encodeVer2 f)).process.getLastError = Error.OK
        then { requestStatus := true }
        else { errMessage := (s.client.writeDWORD Offset.com1ActiveVer2
            (encodeVer2 f)).process.getLastErrorMessage }) := by
  unfold SetCom1Frequency
  rw [if_neg (not_not.mpr hc)]
  simp only [hv]
  generalize encodeVer2 f = w
  split_ifs with h1 h2 h2
  · rfl
  · exact absurd h1 h2
  · exact absurd h2 h1
  · rfl

theorem SetCom2Frequency_ver1 (s : State) (f : Int) (hc : s.status = CONNECTED)
    (hv : s.apiVersion = API_VER1) :
    SetCom2Frequency s f =
      (({ s with
          com2Ver1 := toBCDNumber ((if f > 100000 then f - 100000 else f).tdiv 10) % 2 ^ 16
          client := s.client.writeWORD Offset.com2ActiveVer1
            (toBCDNumber ((if f > 100000 then f - 100000 else f).tdiv 10) % 2 ^ 16) }).process,
        if (s.client.writeWORD Offset.com2ActiveVer1
            (toBCDNumber ((if f > 100000 then f - 100000 else f).tdiv 10) % 2 ^ 16)).process.getLastError = Error.OK
        then { requestStatus := true }
        else { errMessage := (s.client.writeWORD Offset.com2ActiveVer1
            (toBCDNumber ((if f > 100000 then f - 100000 else f).tdiv 10) % 2 ^ 16)).process.getLastErrorMessage }) := by
  unfold SetCom2Frequency
  rw [if_neg (not_not.mpr hc)]
  simp only [hv]
  generalize toBCDNumber ((if f > 100000 then f - 100000 else f).tdiv 10) % 2 ^ 16 = w
  split_ifs with h1 h2 h2
  · rfl
  · exact absurd h1 h2
  · exact absurd h2 h1
  · rfl

theorem SetCom2Frequency_ver2 (s : State) (f : Int) (hc : s.status = CONNECTED)
    (hv : s.apiVersion = API_VER2) :
    SetCom2Frequency s f =
      (({ s with
          com2Ver2 := encodeVer2 f
          client := s.client.writeDWORD Offset.com2ActiveVer2
            (encodeVer2 f) }).process,
        if (s.client.writeDWORD Offset.com2ActiveVer2
            (encodeVer2 f)).process.getLastError = Error.OK
        then { requestStatus := true }
        else { errMessage := (s.client.writeDWORD Offset.com2ActiveVer2
            (encodeVer2 f)).process.getLastErrorMessage }) := by
  unfold SetCom2Frequency
  rw [if_neg (not_not.mpr hc)]
  simp only [hv]
  generalize encodeVer2 f = w
  split_ifs with h1 h2 h2
  · rfl
  · exact absurd h1 h2
  · exact absurd h2 h1
  · rfl

theorem write_result (c : FSUIPCClient) :
    ((if c.getLastError = Error.OK then ({ requestStatus := true } : BaseModel)
        else { errMessage := c.getLastErrorMessage }).requestStatus = true ↔
        c.getLastError = Error.OK) ∧
      (c.getLastError ≠ Error.OK →
        (if c.getLastError = Error.OK then ({ requestStatus := true } : BaseModel)
          else { errMessage := c.getLastErrorMessage }).requestStatus = false ∧
        (if c.getLastError = Error.OK then ({ requestStatus := true } : BaseModel)
          else { errMessage := c.getLastErrorMessage }).errMessage = c.getLastErrorMessage) := by
  by_cases h : c.getLastError = Error.OK
  · simp [h]
  · simp [h]

/-- C11: in state CONNECTED with API version VER1 or VER2, `SetCom1Frequency` and
`SetCom2Frequency` log a write followed by the process step and return
`requestStatus = true` if and only if the last error of the transport after that step
is OK; otherwise `requestStatus` is false and `errMessage` is the last error message of
the transport. -/
theorem setters_report_transport_error (s : State) (f : Int) (hc : s.status = CONNECTED)
    (hv : s.apiVersion = API_VER1 ∨ s.apiVersion = API_VER2) :
    ((∃ c, (SetCom1Frequency s f).1.client.calls = s.client.calls ++ [c, Call.process]) ∧
        ((SetCom1Frequency s f).2.requestStatus = true ↔
          (SetCom1Frequency s f).1.client.getLastError = Error.OK) ∧
        ((SetCom1Frequency s f).1.client.getLastError ≠ Error.OK →
          (SetCom1Frequency s f).2.requestStatus = false ∧
          (SetCom1Frequency s f).2.errMessage
            = (SetCom1Frequency s f).1.client.getLastErrorMessage)) ∧
      ((∃ c, (SetCom2Frequency s f).1.client.calls = s.client.calls ++ [c, Call.process]) ∧
        ((SetCom2Frequency s f).2.requestStatus = true ↔
          (SetCom2Frequency s f).1.client.getLastError = Error.OK) ∧
        ((SetCom2Frequency s f).1.client.getLastError ≠ Error.OK →
          (SetCom2Frequency s f).2.requestStatus = false ∧
          (SetCom2Frequency s f).2.errMessage
            = (SetCom2Frequency s f).1.client.getLastErrorMessage)) := by
  rcases hv with hv | hv
  · rw [SetCom1Frequency_ver1 s f hc hv, SetCom2Frequency_ver1 s f hc hv]
    exact ⟨⟨⟨_, List.append_assoc _ [_] [_]⟩, write_result _⟩,
      ⟨⟨_, List.append_assoc _ [_] [_]⟩, write_result _⟩⟩
  · rw [SetCom1Frequency_ver2 s f hc hv, SetCom2Frequency_ver2 s f hc hv]
    exact ⟨⟨⟨_, List.append_assoc _ [_] [_]⟩, write_result _⟩,
      ⟨⟨_, List.append_assoc _ [_] [_]⟩, write_result _⟩⟩

theorem setters_report_transport_error_witness :
    ((SetCom1Frequency (State.connected (Transport.radio API_VER1 (Error.FAILED 9) "timeout")
          API_VER1 0) 118300).2.requestStatus = false ∧
        (SetCom1Frequency (State.connected (Transport.radio API_VER1 (Error.FAILED 9) "timeout")
          API_VER1 0) 118300).2.errMessage = "timeout") ∧
      ((SetCom2Frequency (State.connected (Transport.radio API_VER1 (Error.FAILED 9) "timeout")
          API_VER1 0) 118300).2.requestStatus = false ∧
        (SetCom2Frequency (State.connected (Transport.radio API_VER1 (Error.FAILED 9) "timeout")
          API_VER1 0) 118300).2.errMessage = "timeout") :=
  ⟨(setters_report_transport_error
      (State.connected (Transport.radio API_VER1 (Error.FAILED 9) "timeout") API_VER1 0) 118300
      rfl (Or.inl rfl)).1.2.2 (by decide),
    (setters_report_transport_error
      (State.connected (Transport.radio API_VER1 (Error.FAILED 9) "timeout") API_VER1 0) 118300
      rfl (Or.inl rfl)).2.2.2 (by decide)⟩
/-- C12: after a successful `OpenFSUIPCClient` on a simulator whose version query succeeds,
`GetFSUIPCVersionInfo` fills `apiVersion`, `simulatorType` and `fsuipcVersion` but returns
`requestStatus = false`, with the default message, although nothing failed. -/
theorem version_info_status_false :
    (OpenFSUIPCClient (State.initial (Transport.radio API_VER1 Error.OK "OK"))).1.status
        = CONNECTED ∧
      (GetFSUIPCVersionInfo
        (OpenFSUIPCClient (State.initial (Transport.radio API_VER1 Error.OK "OK"))).1).2
        = { requestStatus := false, errMessage := "No error found",
            simulatorType := 8, fsuipcVersion := 7, apiVersion := API_VER1.code } ∧
      (OpenFSUIPCClient (State.initial (Transport.radio API_VER1 Error.OK "OK"))).2.requestStatus
        = true := by
  decide

theorem ReadFrequencyInfo_ver2 (s : State) (hc : s.status = CONNECTED)
    (hv : s.apiVersion = API_VER2) :
    ∃ (s' : State) (res : Frequencies),
      ReadFrequencyInfo s = Except.ok (s', res) ∧
      s' = processFrequencyData
        (readFrequencyVer2 { s with client := s.client.readBYTE Offset.radioSwitch }) := by
  unfold ReadFrequencyInfo
  rw [if_neg (not_not.mpr hc), if_neg (by rw [hv]; decide)]
  simp only [bind, Except.bind, pure, Except.pure]
  rw [if_neg (by rw [hv]; decide)]
  split_ifs
  · exact ⟨_, _, rfl, rfl⟩
  · exact ⟨_, _, rfl, rfl⟩

/-- C13: in state CONNECTED with API version VER2, whatever four DWORD values and switch byte
the transport delivers at the process step, `ReadFrequencyInfo` returns them unchanged:
`frequency` holds the DWORDs of COM1 active, COM1 standby, COM2 active and COM2 standby,
in this order, and `frequencyFlag` is the switch byte. -/
theorem read_ver2_identity (s : State) (a b c d sw : Nat) (hc : s.status = CONNECTED)
    (hv : s.apiVersion = API_VER2)
    (ha : a < 2 ^ 32) (hb : b < 2 ^ 32) (hcc : c < 2 ^ 32) (hd : d < 2 ^ 32) (hsw : sw < 2 ^ 8)
    (da : s.client.transport.data (s.client.calls ++ [Call.readBYTE Offset.radioSwitch,
      Call.readDWORD Offset.com1ActiveVer2, Call.readDWORD Offset.com1StandbyVer2,
      Call.readDWORD Offset.com2ActiveVer2, Call.readDWORD Offset.com2StandbyVer2,
      Call.process]) Offset.com1ActiveVer2 = a)
    (db : s.client.transport.data (s.client.calls ++ [Call.readBYTE Offset.radioSwitch,
      Call.readDWORD Offset.com1ActiveVer2, Call.readDWORD Offset.com1StandbyVer2,
      Call.readDWORD Offset.com2ActiveVer2, Call.readDWORD Offset.com2StandbyVer2,
      Call.process]) Offset.com1StandbyVer2 = b)
    (dc : s.client.transport.data (s.client.calls ++ [Call.readBYTE Offset.radioSwitch,
      Call.readDWORD Offset.com1ActiveVer2, Call.readDWORD Offset.com1StandbyVer2,
      Call.readDWORD Offset.com2ActiveVer2, Call.readDWORD Offset.com2StandbyVer2,
      Call.process]) Offset.com2ActiveVer2 = c)
    (dd : s.client.transport.data (s.client.calls ++ [Call.readBYTE Offset.radioSwitch,
      Call.readDWORD Offset.com1ActiveVer2, Call.readDWORD Offset.com1StandbyVer2,
      Call.readDWORD Offset.com2ActiveVer2, Call.readDWORD Offset.com2StandbyVer2,
      Call.process]) Offset.com2StandbyVer2 = d)
    (dsw : s.client.transport.data (s.client.calls ++ [Call.readBYTE Offset.radioSwitch,
      Call.readDWORD Offset.com1ActiveVer2, Call.readDWORD Offset.com1StandbyVer2,
      Call.readDWORD Offset.com2ActiveVer2, Call.readDWORD Offset.com2StandbyVer2,
      Call.process]) Offset.radioSwitch = sw) :
    ∃ (s' : State) (res : Frequencies),
      ReadFrequencyInfo s = Except.ok (s', res) ∧
      res.frequency = [a, b, c, d] ∧ res.frequencyFlag = sw := by
  obtain ⟨s', res, h, -⟩ := ReadFrequencyInfo_ver2 s hc hv
  obtain ⟨s2, hread, -, hfreq, hflag, -⟩ :=
    ReadFrequencyInfo_ok s s' res hc (by rw [hv]; decide) h
  rw [if_neg (by rw [hv]; decide)] at hread
  refine ⟨s', res, h, ?_, ?_⟩
  · rw [hfreq, hread]
    simp [readFrequencyVer2, State.process, FSUIPCClient.fresh, FSUIPCClient.readDWORD,
      FSUIPCClient.readBYTE, FSUIPCClient.record, decodeVer2, da, db, dc, dd,
      Nat.mod_eq_of_lt ha, Nat.mod_eq_of_lt hb, Nat.mod_eq_of_lt hcc, Nat.mod_eq_of_lt hd]
    omega
  · rw [hflag, hread]
    simp [readFrequencyVer2, State.process, FSUIPCClient.fresh, FSUIPCClient.readDWORD,
      FSUIPCClient.readBYTE, FSUIPCClient.record, dsw, Nat.mod_eq_of_lt hsw]
    omega

theorem read_ver2_identity_witness :
    ∃ (s' : State) (res : Frequencies),
      ReadFrequencyInfo (State.connected (Transport.radio API_VER2 Error.OK "OK") API_VER2 0)
        = Except.ok (s', res) ∧
      res.frequency = [118300000, 121500000, 122800000, 136975000] ∧
      res.frequencyFlag = 0xC0 :=
  read_ver2_identity (State.connected (Transport.radio API_VER2 Error.OK "OK") API_VER2 0)
    118300000 121500000 122800000 136975000 0xC0 rfl rfl (by norm_num) (by norm_num)
    (by norm_num) (by norm_num) (by norm_num) rfl rfl rfl rfl rfl

/-- C14: in a state whose status is NO_CONNECTION, `CloseFSUIPCClient` leaves the whole state
as it was: the transport log gains no entry, so no `close` is issued, and status, API
version and the four cached frequencies are unchanged. -/
theorem close_not_connected (s : State) (h : s.status = NO_CONNECTION) :
    (CloseFSUIPCClient s).1 = s ∧
      (CloseFSUIPCClient s).1.client.calls = s.client.calls ∧
      (CloseFSUIPCClient s).1.status = s.status ∧
      (CloseFSUIPCClient s).1.apiVersion = s.apiVersion ∧
      (CloseFSUIPCClient s).1.com1ActiveLast = s.com1ActiveLast ∧
      (CloseFSUIPCClient s).1.com1StandbyLast = s.com1StandbyLast ∧
      (CloseFSUIPCClient s).1.com2ActiveLast = s.com2ActiveLast ∧
      (CloseFSUIPCClient s).1.com2StandbyLast = s.com2StandbyLast := by
  have hne : ¬ s.status = CONNECTED := by rw [h]; decide
  have e : (CloseFSUIPCClient s).1 = s := by
    unfold CloseFSUIPCClient disconnect
    simp only [if_neg hne]
    split_ifs <;> rfl
  rw [e]
  exact ⟨rfl, rfl, rfl, rfl, rfl, rfl, rfl, rfl⟩

theorem close_not_connected_witness :
    (CloseFSUIPCClient (State.initial (Transport.radio API_VER1 Error.OK "OK"))).1.client.calls
        = [] ∧
      (CloseFSUIPCClient (State.initial (Transport.radio API_VER1 Error.OK "OK"))).1.status
        = NO_CONNECTION :=
  ⟨(close_not_connected (State.initial (Transport.radio API_VER1 Error.OK "OK")) rfl).2.1,
    (close_not_connected (State.initial (Transport.radio API_VER1 Error.OK "OK")) rfl).2.2.1⟩

theorem bcdDecode_packed (m : Nat) (h : m ≤ 9999) :
    bcdDecode (packedBCD m : Nat) = Except.ok m := by
  rw [packedBCD_eq]
  have hd0 : m % 10 < 10 := Nat.mod_lt _ (by decide)
  have hd1 : m / 10 % 10 < 10 := Nat.mod_lt _ (by decide)
  have hd2 : m / 100 % 10 < 10 := Nat.mod_lt _ (by decide)
  have hd3 : m / 1000 % 10 < 10 := Nat.mod_lt _ (by decide)
  have hn : m = m % 10 + 10 * (m / 10 % 10) + 100 * (m / 100 % 10) + 1000 * (m / 1000 % 10) := by
    omega
  generalize m % 10 = d0 at *
  generalize m / 10 % 10 = d1 at *
  generalize m / 100 % 10 = d2 at *
  generalize m / 1000 % 10 = d3 at *
  obtain ⟨e0, e1, e2, e3⟩ := nibbles_of_pack d0 d1 d2 d3 (by omega) (by omega) (by omega)
  rw [bcdDecode_decimal _ (by omega) (by omega) (by omega) (by omega) (by omega), e0, e1, e2,
    e3, hn]
  congr 1
  omega

theorem rebase_channel (f : Nat) (h1 : 100000 < f) (h2 : f < 200000) (h25 : f % 25 = 0) :
    rebase ((f - 100000) / 10) = f * 1000 := by
  rw [rebase_small _ (by omega)]
  obtain ⟨k, hk⟩ : ∃ k, f = 100000 + 25 * k := ⟨(f - 100000) / 25, by omega⟩
  subst hk
  obtain ⟨q, r, hr, hq⟩ : ∃ q r, r < 4 ∧ k = 4 * q + r := ⟨k / 4, k % 4, by omega, by omega⟩
  subst hq
  interval_cases r <;> omega
theorem ver1_word (f : Int) (h1 : 100000 < f) (h2 : f ≤ 199999) :
    toBCDNumber ((if f > 100000 then f - 100000 else f).tdiv 10) % 2 ^ 16
      = packedBCD ((f.toNat - 100000) / 10) := by
  have hm : (f - 100000).tdiv 10 = (((f.toNat - 100000) / 10 : Nat) : Int) := by
    rw [Int.tdiv_eq_ediv (by omega) (by norm_num)]
    omega
  rw [if_pos h1, hm, toBCDNumber_packed _ (by omega)]

theorem processNumber_ver1_word (f : Int) (h1 : 100000 < f) (h2 : f < 200000)
    (h25 : f % 25 = 0) :
    processNumber
        ((toBCDNumber ((if f > 100000 then f - 100000 else f).tdiv 10) % 2 ^ 16 : Nat) : Int)
      = Except.ok (f * 1000).toNat := by
  rw [ver1_word f h1 (by omega)]
  unfold processNumber
  rw [bcdDecode_packed _ (by omega)]
  simp only [Except.map]
  rw [rebase_channel f.toNat (by omega) (by omega) (by omega)]
  congr 1
  omega

/-- C15: under VER1, for every frequency `f` in kHz that is a multiple of 25 with
`100000 < f < 200000`, the 16-bit word that `SetCom1Frequency(f)` and
`SetCom2Frequency(f)` hand to the transport is decoded by `processNumber` to exactly
`f * 1000` Hz. -/
theorem ver1_write_read_round_trip (s : State) (f : Int) (hc : s.status = CONNECTED)
    (hv : s.apiVersion = API_VER1) (h1 : 100000 < f) (h2 : f < 200000) (h25 : f % 25 = 0) :
    (∃ w : Nat,
        (SetCom1Frequency s f).1.client.calls = s.client.calls ++
          [Call.writeWORD Offset.com1ActiveVer1 w, Call.process] ∧
        (SetCom1Frequency s f).1.com1Ver1 = w ∧
        processNumber (w : Int) = Except.ok (f * 1000).toNat) ∧
      (∃ w : Nat,
        (SetCom2Frequency s f).1.client.calls = s.client.calls ++
          [Call.writeWORD Offset.com2ActiveVer1 w, Call.process] ∧
        (SetCom2Frequency s f).1.com2Ver1 = w ∧
        processNumber (w : Int) = Except.ok (f * 1000).toNat) := by
  rw [SetCom1Frequency_ver1 s f hc hv, SetCom2Frequency_ver1 s f hc hv]
  exact ⟨⟨_, List.append_assoc _ [_] [_], rfl, processNumber_ver1_word f h1 h2 h25⟩,
    ⟨_, List.append_assoc _ [_] [_], rfl, processNumber_ver1_word f h1 h2 h25⟩⟩

theorem ver1_write_read_round_trip_witness :
    (∃ w : Nat,
        (SetCom1Frequency (State.connected (Transport.radio API_VER1 Error.OK "OK") API_VER1 0)
          118025).1.client.calls = [] ++
          [Call.writeWORD Offset.com1ActiveVer1 w, Call.process] ∧
        (SetCom1Frequency (State.connected (Transport.radio API_VER1 Error.OK "OK") API_VER1 0)
          118025).1.com1Ver1 = w ∧
        processNumber (w : Int) = Except.ok ((118025 : Int) * 1000).toNat) ∧
      (∃ w : Nat,
        (SetCom2Frequency (State.connected (Transport.radio API_VER1 Error.OK "OK") API_VER1 0)
          118025).1.client.calls = [] ++
          [Call.writeWORD Offset.com2ActiveVer1 w, Call.process] ∧
        (SetCom2Frequency (State.connected (Transport.radio API_VER1 Error.OK "OK") API_VER1 0)
          118025).1.com2Ver1 = w ∧
        processNumber (w : Int) = Except.ok ((118025 : Int) * 1000).toNat) :=
  ver1_write_read_round_trip
    (State.connected (Transport.radio API_VER1 Error.OK "OK") API_VER1 0) 118025 rfl rfl
    (by norm_num) (by norm_num) (by norm_num)
theorem update_com1ActiveLast (s : State) :
    (if s.com1Active ≠ s.com1ActiveLast then { s with com1ActiveLast := s.com1Active } else s)
      = { s with com1ActiveLast := s.com1Active } := by
  split_ifs with c
  · rfl
  · have e : s.com1Active = s.com1ActiveLast := not_not.mp c
    cases s
    dsimp only at e ⊢
    subst e
    rfl

theorem update_com1StandbyLast (s : State) :
    (if s.com1Standby ≠ s.com1StandbyLast then { s with com1StandbyLast := s.com1Standby }
      else s) = { s with com1StandbyLast := s.com1Standby } := by
  split_ifs with c
  · rfl
  · have e : s.com1Standby = s.com1StandbyLast := not_not.mp c
    cases s
    dsimp only at e ⊢
    subst e
    rfl

theorem update_com2ActiveLast (s : State) :
    (if s.com2Active ≠ s.com2ActiveLast then { s with com2ActiveLast := s.com2Active } else s)
      = { s with com2ActiveLast := s.com2Active } := by
  split_ifs with c
  · rfl
  · have e : s.com2Active = s.com2ActiveLast := not_not.mp c
    cases s
    dsimp only at e ⊢
    subst e
    rfl

theorem update_com2StandbyLast (s : State) :
    (if s.com2Standby ≠ s.com2StandbyLast then { s with com2StandbyLast := s.com2Standby }
      else s) = { s with com2StandbyLast := s.com2Standby } := by
  split_ifs with c
  · rfl
  · have e : s.com2Standby = s.com2StandbyLast := not_not.mp c
    cases s
    dsimp only at e ⊢
    subst e
    rfl

theorem processFrequencyData_nonzero (s : State)
    (h : ¬ (s.com1Active = 0 ∧ s.com1Standby = 0 ∧ s.com2Active = 0 ∧ s.com2Standby = 0)) :
    processFrequencyData s =
      { s with
        com1ActiveLast := s.com1Active, com1StandbyLast := s.com1Standby
        com2ActiveLast := s.com2Active, com2StandbyLast := s.com2Standby } := by
  have e1 := update_com1ActiveLast s
  have e2 := update_com1StandbyLast { s with com1ActiveLast := s.com1Active }
  have e3 := update_com2ActiveLast
    { s with com1ActiveLast := s.com1Active, com1StandbyLast := s.com1Standby }
  have e4 := update_com2StandbyLast
    { s with
      com1ActiveLast := s.com1Active, com1StandbyLast := s.com1Standby
      com2ActiveLast := s.com2Active }
  dsimp only at e2 e3 e4
  unfold processFrequencyData
  rw [if_neg h]
  dsimp only
  rw [e1]
  dsimp only
  rw [e2]
  dsimp only
  rw [e3]
  dsimp only
  rw [e4]

/-- C16: from a CONNECTED state with a known API version, after a `ReadFrequencyInfo` cycle in
which at least one of the four decoded frequencies is not 0, the four cached last-known
frequencies are the four frequencies returned to the caller, and status and API version
are unchanged. -/
theorem read_updates_cache (s s' : State) (res : Frequencies)
    (hc : s.status = CONNECTED) (hv : s.apiVersion ≠ API_UNKNOWN)
    (h : ReadFrequencyInfo s = Except.ok (s', res)) (hnz : res.frequency ≠ [0, 0, 0, 0]) :
    [s'.com1ActiveLast, s'.com1StandbyLast, s'.com2ActiveLast, s'.com2StandbyLast]
        = res.frequency ∧
      s'.status = s.status ∧ s'.apiVersion = s.apiVersion := by
  obtain ⟨s2, hread, hs', hfreq, -, -⟩ := ReadFrequencyInfo_ok s s' res hc hv h
  obtain ⟨hst, hver, -, -, -, -⟩ := read_cycle_status s s2 hread
  have hne : ¬ (s2.com1Active = 0 ∧ s2.com1Standby = 0 ∧ s2.com2Active = 0 ∧
      s2.com2Standby = 0) := by
    rintro ⟨z1, z2, z3, z4⟩
    apply hnz
    rw [hfreq, z1, z2, z3, z4]
  rw [hs', hfreq, processFrequencyData_nonzero s2 hne]
  exact ⟨rfl, hst, hver⟩

theorem read_updates_cache_witness :
    ∃ (s' : State) (res : Frequencies),
      ReadFrequencyInfo (State.connected (Transport.radio API_VER2 Error.OK "OK") API_VER2 0)
        = Except.ok (s', res) ∧
      res.frequency = [118300000, 121500000, 122800000, 136975000] ∧
      [s'.com1ActiveLast, s'.com1StandbyLast, s'.com2ActiveLast, s'.com2StandbyLast]
        = res.frequency ∧
      s'.status = CONNECTED ∧ s'.apiVersion = API_VER2 :=
  ⟨_, _, rfl, rfl,
    read_updates_cache (State.connected (Transport.radio API_VER2 Error.OK "OK") API_VER2 0)
      _ _ rfl (by decide) rfl (by decide)⟩
theorem disconnect_invariant (s : State)
    (h : s.status = NO_CONNECTION → s.apiVersion = API_UNKNOWN) :
    (disconnect s).status = NO_CONNECTION → (disconnect s).apiVersion = API_UNKNOWN := by
  unfold disconnect
  split_ifs
  · intro _; rfl
  · exact h

theorem processFrequencyData_invariant (s : State)
    (h : s.status = NO_CONNECTION → s.apiVersion = API_UNKNOWN) :
    (processFrequencyData s).status = NO_CONNECTION →
      (processFrequencyData s).apiVersion = API_UNKNOWN := by
  by_cases hz : s.com1Active = 0 ∧ s.com1Standby = 0 ∧ s.com2Active = 0 ∧ s.com2Standby = 0
  · unfold processFrequencyData
    rw [if_pos hz]
    exact disconnect_invariant _ h
  · rw [processFrequencyData_nonzero s hz]
    exact h

theorem SetCom1Frequency_frame (s : State) (f : Int) :
    (SetCom1Frequency s f).1.status = s.status ∧
      (SetCom1Frequency s f).1.apiVersion = s.apiVersion := by
  by_cases hc : s.status = CONNECTED
  · cases hver : s.apiVersion with
    | API_UNKNOWN => simp [SetCom1Frequency, hc, hver]
    | API_VER1 => rw [SetCom1Frequency_ver1 s f hc hver]; exact ⟨rfl, hver⟩
    | API_VER2 => rw [SetCom1Frequency_ver2 s f hc hver]; exact ⟨rfl, hver⟩
  · simp [SetCom1Frequency, hc]

theorem SetCom2Frequency_frame (s : State) (f : Int) :
    (SetCom2Frequency s f).1.status = s.status ∧
      (SetCom2Frequency s f).1.apiVersion = s.apiVersion := by
  by_cases hc : s.status = CONNECTED
  · cases hver : s.apiVersion with
    | API_UNKNOWN => simp [SetCom2Frequency, hc, hver]
    | API_VER1 => rw [SetCom2Frequency_ver1 s f hc hver]; exact ⟨rfl, hver⟩
    | API_VER2 => rw [SetCom2Frequency_ver2 s f hc hver]; exact ⟨rfl, hver⟩
  · simp [SetCom2Frequency, hc]

theorem GetFSUIPCVersionInfo_frame (s : State) :
    (GetFSUIPCVersionInfo s).1.status = s.status ∧
      (GetFSUIPCVersionInfo s).1.apiVersion = s.apiVersion := by
  unfold GetFSUIPCVersionInfo
  split_ifs
  · exact ⟨rfl, rfl⟩
  · dsimp only
    split <;> exact ⟨rfl, rfl⟩

theorem OpenFSUIPCClient_invariant (s : State)
    (h : s.status = NO_CONNECTION → s.apiVersion = API_UNKNOWN) :
    (OpenFSUIPCClient s).1.status = NO_CONNECTION →
      (OpenFSUIPCClient s).1.apiVersion = API_UNKNOWN := by
  unfold OpenFSUIPCClient
  dsimp only
  split_ifs
  · exact h
  · split <;> (intro hs; cases hs)

theorem CloseFSUIPCClient_invariant (s : State)
    (h : s.status = NO_CONNECTION → s.apiVersion = API_UNKNOWN) :
    (CloseFSUIPCClient s).1.status = NO_CONNECTION →
      (CloseFSUIPCClient s).1.apiVersion = API_UNKNOWN := by
  unfold CloseFSUIPCClient
  dsimp only
  split_ifs <;> exact disconnect_invariant s h

theorem ReadFrequencyInfo_gate (s s' : State) (res : Frequencies)
    (hg : s.status ≠ CONNECTED ∨ s.apiVersion = API_UNKNOWN)
    (h : ReadFrequencyInfo s = Except.ok (s', res)) : s' = s := by
  unfold ReadFrequencyInfo at h
  by_cases hc : s.status = CONNECTED
  · have hv : s.apiVersion = API_UNKNOWN := by
      rcases hg with hg | hg
      · exact absurd hc hg
      · exact hg
    rw [if_neg (not_not.mpr hc), if_pos hv] at h
    cases h
    rfl
  · rw [if_pos hc] at h
    cases h
    rfl

theorem ReadFrequencyInfo_invariant (s s' : State) (res : Frequencies)
    (h : ReadFrequencyInfo s = Except.ok (s', res))
    (hi : s.status = NO_CONNECTION → s.apiVersion = API_UNKNOWN) :
    s'.status = NO_CONNECTION → s'.apiVersion = API_UNKNOWN := by
  by_cases hg : s.status ≠ CONNECTED ∨ s.apiVersion = API_UNKNOWN
  · rw [ReadFrequencyInfo_gate s s' res hg h]
    exact hi
  · have hc : s.status = CONNECTED := by
      by_contra hn; exact hg (Or.inl hn)
    have hv : s.apiVersion ≠ API_UNKNOWN := fun hn => hg (Or.inr hn)
    obtain ⟨s2, hread, hs', -, -, -⟩ := ReadFrequencyInfo_ok s s' res hc hv h
    obtain ⟨hst, hver, -, -, -, -⟩ := read_cycle_status s s2 hread
    rw [hs']
    apply processFrequencyData_invariant
    rw [hst, hver]
    exact hi

theorem apply_invariant (op : Operation) (s s' : State) (h : op.apply s = Except.ok s')
    (hi : s.status = NO_CONNECTION → s.apiVersion = API_UNKNOWN) :
    s'.status = NO_CONNECTION → s'.apiVersion = API_UNKNOWN := by
  cases op with
  | openClient =>
    cases h
    exact OpenFSUIPCClient_invariant s hi
  | closeClient =>
    cases h
    exact CloseFSUIPCClient_invariant s hi
  | readFrequencyInfo =>
    simp only [Operation.apply, Except.map] at h
    cases hr : ReadFrequencyInfo s with
    | error e => rw [hr] at h; cases h
    | ok p =>
      rw [hr] at h
      cases h
      exact ReadFrequencyInfo_invariant s p.1 p.2 hr hi
  | getConnectionState =>
    cases h
    exact hi
  | getVersionInfo =>
    cases h
    obtain ⟨e1, e2⟩ := GetFSUIPCVersionInfo_frame s
    rw [e1, e2]
    exact hi
  | setCom1Frequency f =>
    cases h
    obtain ⟨e1, e2⟩ := SetCom1Frequency_frame s f
    rw [e1, e2]
    exact hi
  | setCom2Frequency f =>
    cases h
    obtain ⟨e1, e2⟩ := SetCom2Frequency_frame s f
    rw [e1, e2]
    exact hi

theorem run_invariant (ops : List Operation) :
    ∀ s s' : State, run ops s = Except.ok s' →
      (s.status = NO_CONNECTION → s.apiVersion = API_UNKNOWN) →
      s'.status = NO_CONNECTION → s'.apiVersion = API_UNKNOWN := by
  induction ops with
  | nil =>
    intro s s' h hi
    cases h
    exact hi
  | cons op ops ih =>
    intro s s' h hi
    unfold run at h
    cases ha : op.apply s with
    | error e => rw [ha] at h; cases h
    | ok s1 =>
      rw [ha] at h
      exact ih s1 s' h (apply_invariant op s s1 ha hi)

/-- C17: from the initial state, for every simulator behaviour and every finite sequence of
exported operations that runs to its end, the state reached has API version UNKNOWN
whenever its status is NO_CONNECTION. -/
theorem no_connection_implies_unknown (t : Transport) (ops : List Operation) (s : State)
    (h : run ops (State.initial t) = Except.ok s) (hs : s.status = NO_CONNECTION) :
    s.apiVersion = API_UNKNOWN :=
  run_invariant ops (State.initial t) s h (fun _ => rfl) hs

theorem no_connection_implies_unknown_witness :
    ∃ s : State,
      run [Operation.openClient, Operation.setCom1Frequency 118300,
          Operation.readFrequencyInfo, Operation.getVersionInfo, Operation.closeClient]
        (State.initial (Transport.radio API_VER2 Error.OK "OK")) = Except.ok s ∧
      s.status = NO_CONNECTION ∧ s.apiVersion = API_UNKNOWN :=
  ⟨_, rfl, rfl,
    no_connection_implies_unknown (Transport.radio API_VER2 Error.OK "OK")
      [Operation.openClient, Operation.setCom1Frequency 118300,
        Operation.readFrequencyInfo, Operation.getVersionInfo, Operation.closeClient]
      _ rfl rfl⟩
theorem fresh_word_lt (c : FSUIPCClient) (o : Offset) (old : Nat) (h : o ∈ c.pending) :
    c.fresh o 16 old < 65536 := by
  unfold FSUIPCClient.fresh
  rw [if_pos h]
  exact Nat.mod_lt _ (by norm_num)

theorem readFrequencyVer1_values (s s2 : State) (h : readFrequencyVer1 s = Except.ok s2) :
    ∃ w1 w2 w3 w4 : Nat,
      (w1 < 65536 ∧ w2 < 65536 ∧ w3 < 65536 ∧ w4 < 65536) ∧
      processNumber (w1 : Int) = Except.ok s2.com1Active ∧
      processNumber (w2 : Int) = Except.ok s2.com1Standby ∧
      processNumber (w3 : Int) = Except.ok s2.com2Active ∧
      processNumber (w4 : Int) = Except.ok s2.com2Standby ∧
      s2.client.calls = s.client.calls ++
        [Call.readWORD Offset.com1ActiveVer1, Call.readWORD Offset.com1StandbyVer1,
          Call.readWORD Offset.com2ActiveVer1, Call.readWORD Offset.com2StandbyVer1,
          Call.process] := by
  unfold readFrequencyVer1 at h
  simp only [bind, Except.bind, pure, Except.pure] at h
  split at h
  · cases h
  · rename_i v1 h1
    split at h
    · cases h
    · rename_i v2 h2
      split at h
      · cases h
      · rename_i v3 h3
        split at h
        · cases h
        · rename_i v4 h4
          cases h
          refine ⟨_, _, _, _, ⟨?_, ?_, ?_, ?_⟩, h1, h2, h3, h4, ?_⟩
          · exact fresh_word_lt _ _ _ (by simp [FSUIPCClient.readWORD, FSUIPCClient.record])
          · exact fresh_word_lt _ _ _ (by simp [FSUIPCClient.readWORD, FSUIPCClient.record])
          · exact fresh_word_lt _ _ _ (by simp [FSUIPCClient.readWORD, FSUIPCClient.record])
          · exact fresh_word_lt _ _ _ (by simp [FSUIPCClient.readWORD, FSUIPCClient.record])
          · simp [State.process, FSUIPCClient.process, FSUIPCClient.readWORD,
              FSUIPCClient.record]

theorem processNumber_ge (w v : Nat) (hw : w < 65536)
    (h : processNumber (w : Int) = Except.ok v) : 100000000 ≤ v := by
  obtain ⟨hp, hn⟩ := bcdDecode_word w hw
  unfold processNumber at h
  by_cases hl : leadingNibble w < 10
  · obtain ⟨c, hc, e⟩ := hp hl
    rw [e] at h
    simp only [Except.map, Except.ok.injEq] at h
    rw [← h, rebase_small c (by omega)]
    omega
  · rw [hn (by omega)] at h
    cases h

/-- C18: on every 16-bit wire value on which `processNumber` returns, the result is at least
100000000, hence not 0; so a `ReadFrequencyInfo` cycle under VER1 that returns, whatever
the transport delivered, has four frequencies of at least 100000000, issues no `close`
and leaves the status CONNECTED and the API version VER1. -/
theorem ver1_never_disconnects :
    (∀ w v : Nat, w < 65536 → processNumber (w : Int) = Except.ok v →
        100000000 ≤ v ∧ v ≠ 0) ∧
      (∀ s s2 : State, readFrequencyVer1 s = Except.ok s2 →
        ¬ (s2.com1Active = 0 ∧ s2.com1Standby = 0 ∧ s2.com2Active = 0 ∧ s2.com2Standby = 0)) ∧
      (∀ (s s' : State) (res : Frequencies), s.status = CONNECTED → s.apiVersion = API_VER1 →
        ReadFrequencyInfo s = Except.ok (s', res) →
        (∀ x ∈ res.frequency, 100000000 ≤ x) ∧
        s'.status = CONNECTED ∧ s'.apiVersion = API_VER1 ∧
        s'.client.calls = s.client.calls ++
          [Call.readBYTE Offset.radioSwitch, Call.readWORD Offset.com1ActiveVer1,
            Call.readWORD Offset.com1StandbyVer1, Call.readWORD Offset.com2ActiveVer1,
            Call.readWORD Offset.com2StandbyVer1, Call.process]) := by
  refine ⟨?_, ?_, ?_⟩
  · intro w v hw h
    have := processNumber_ge w v hw h
    exact ⟨this, by omega⟩
  · intro s s2 hread
    obtain ⟨w1, -, -, -, ⟨b1, -, -, -⟩, p1, -, -, -, -⟩ := readFrequencyVer1_values s s2 hread
    have g1 := processNumber_ge w1 _ b1 p1
    rintro ⟨z1, -, -, -⟩
    omega
  · intro s s' res hc hv h
    obtain ⟨s2, hread, hs', hfreq, -, -⟩ :=
      ReadFrequencyInfo_ok s s' res hc (by rw [hv]; decide) h
    obtain ⟨hst, hver, -, -, -, -⟩ := read_cycle_status s s2 hread
    rw [if_pos hv] at hread
    obtain ⟨w1, w2, w3, w4, ⟨b1, b2, b3, b4⟩, p1, p2, p3, p4, hcalls⟩ :=
      readFrequencyVer1_values _ s2 hread
    have g1 := processNumber_ge w1 _ b1 p1
    have g2 := processNumber_ge w2 _ b2 p2
    have g3 := processNumber_ge w3 _ b3 p3
    have g4 := processNumber_ge w4 _ b4 p4
    have hne : ¬ (s2.com1Active = 0 ∧ s2.com1Standby = 0 ∧ s2.com2Active = 0 ∧
        s2.com2Standby = 0) := by
      rintro ⟨z1, -, -, -⟩
      omega
    rw [hs', processFrequencyData_nonzero s2 hne, hfreq]
    refine ⟨?_, ?_, ?_, ?_⟩
    · intro x hx
      simp only [List.mem_cons, List.mem_singleton, List.not_mem_nil, or_false] at hx
      rcases hx with hx | hx | hx | hx <;> rw [hx] <;> assumption
    · show s2.status = CONNECTED
      rw [hst, hc]
    · show s2.apiVersion = API_VER1
      rw [hver, hv]
    · show s2.client.calls = _
      rw [hcalls]
      simp [FSUIPCClient.readBYTE, FSUIPCClient.record]

theorem ver1_never_disconnects_witness :
    (100000000 ≤ 100000000 ∧ 100000000 ≠ 0) ∧
      ∃ (s' : State) (res : Frequencies),
        ReadFrequencyInfo (State.connected (Transport.steady API_VER1 Error.OK "" 0) API_VER1 0)
          = Except.ok (s', res) ∧
        res.frequency = [100000000, 100000000, 100000000, 100000000] ∧
        (∀ x ∈ res.frequency, 100000000 ≤ x) ∧
        s'.status = CONNECTED ∧ s'.apiVersion = API_VER1 ∧
        s'.client.calls = [] ++
          [Call.readBYTE Offset.radioSwitch, Call.readWORD Offset.com1ActiveVer1,
            Call.readWORD Offset.com1StandbyVer1, Call.readWORD Offset.com2ActiveVer1,
            Call.readWORD Offset.com2StandbyVer1, Call.process] :=
  ⟨ver1_never_disconnects.1 0 100000000 (by decide) (by decide),
    _, _, rfl, rfl,
    ver1_never_disconnects.2.2
      (State.connected (Transport.steady API_VER1 Error.OK "" 0) API_VER1 0) _ _ rfl rfl rfl⟩

/-- C19: in state CONNECTED with API version VER1 or VER2, `SetCom1Frequency` and
`SetCom2Frequency` hand the same wire value to the transport, in a write of the same
width followed by the process step, the first at the COM1-active offset and the second
at the COM2-active offset; when the transport reports the same last error and message
after both, the two result records are equal. -/
theorem setters_agree (s : State) (f : Int) (hc : s.status = CONNECTED)
    (hv : s.apiVersion = API_VER1 ∨ s.apiVersion = API_VER2) :
    (∃ v : Nat,
        (s.apiVersion = API_VER1 ∧
          (SetCom1Frequency s f).1.com1Ver1 = v ∧ (SetCom2Frequency s f).1.com2Ver1 = v ∧
          (SetCom1Frequency s f).1.client.calls = s.client.calls ++
            [Call.writeWORD Offset.com1ActiveVer1 v, Call.process] ∧
          (SetCom2Frequency s f).1.client.calls = s.client.calls ++
            [Call.writeWORD Offset.com2ActiveVer1 v, Call.process]) ∨
        (s.apiVersion = API_VER2 ∧
          (SetCom1Frequency s f).1.com1Ver2 = v ∧ (SetCom2Frequency s f).1.com2Ver2 = v ∧
          (SetCom1Frequency s f).1.client.calls = s.client.calls ++
            [Call.writeDWORD Offset.com1ActiveVer2 v, Call.process] ∧
          (SetCom2Frequency s f).1.client.calls = s.client.calls ++
            [Call.writeDWORD Offset.com2ActiveVer2 v, Call.process])) ∧
      ((SetCom1Frequency s f).1.client.getLastError
          = (SetCom2Frequency s f).1.client.getLastError →
        (SetCom1Frequency s f).1.client.getLastErrorMessage
          = (SetCom2Frequency s f).1.client.getLastErrorMessage →
        (SetCom1Frequency s f).2 = (SetCom2Frequency s f).2) := by
  rcases hv with hv | hv
  · rw [SetCom1Frequency_ver1 s f hc hv, SetCom2Frequency_ver1 s f hc hv]
    generalize toBCDNumber ((if f > 100000 then f - 100000 else f).tdiv 10) % 2 ^ 16 = w
    refine ⟨⟨w, Or.inl ⟨hv, rfl, rfl, List.append_assoc _ [_] [_],
      List.append_assoc _ [_] [_]⟩⟩, ?_⟩
    intro he hm
    have he' : (s.client.writeWORD Offset.com1ActiveVer1 w).process.getLastError
        = (s.client.writeWORD Offset.com2ActiveVer1 w).process.getLastError := he
    have hm' : (s.client.writeWORD Offset.com1ActiveVer1 w).process.getLastErrorMessage
        = (s.client.writeWORD Offset.com2ActiveVer1 w).process.getLastErrorMessage := hm
    dsimp only
    rw [he', hm']
  · rw [SetCom1Frequency_ver2 s f hc hv, SetCom2Frequency_ver2 s f hc hv]
    generalize encodeVer2 f = w
    refine ⟨⟨w, Or.inr ⟨hv, rfl, rfl, List.append_assoc _ [_] [_],
      List.append_assoc _ [_] [_]⟩⟩, ?_⟩
    intro he hm
    have he' : (s.client.writeDWORD Offset.com1ActiveVer2 w).process.getLastError
        = (s.client.writeDWORD Offset.com2ActiveVer2 w).process.getLastError := he
    have hm' : (s.client.writeDWORD Offset.com1ActiveVer2 w).process.getLastErrorMessage
        = (s.client.writeDWORD Offset.com2ActiveVer2 w).process.getLastErrorMessage := hm
    dsimp only
    rw [he', hm']

theorem setters_agree_witness :
    (SetCom1Frequency (State.connected (Transport.radio API_VER1 (Error.FAILED 9) "timeout")
        API_VER1 0) 118300).1.client.calls
        = [Call.writeWORD Offset.com1ActiveVer1 0x1830, Call.process] ∧
      (SetCom2Frequency (State.connected (Transport.radio API_VER1 (Error.FAILED 9) "timeout")
        API_VER1 0) 118300).1.client.calls
        = [Call.writeWORD Offset.com2ActiveVer1 0x1830, Call.process] ∧
      (SetCom1Frequency (State.connected (Transport.radio API_VER1 (Error.FAILED 9) "timeout")
        API_VER1 0) 118300).2
        = (SetCom2Frequency (State.connected (Transport.radio API_VER1 (Error.FAILED 9) "timeout")
          API_VER1 0) 118300).2 :=
  ⟨by decide, by decide,
    (setters_agree (State.connected (Transport.radio API_VER1 (Error.FAILED 9) "timeout")
      API_VER1 0) 118300 rfl (Or.inl rfl)).2 rfl rfl⟩
end FSUIPC
